import Mathlib

/-!
Verification of the RFM12 Comm layer (interrupt-driven TX/RX framing with
CRC and control-byte checks) against its natural-language specification.

The definitions below are a shallow embedding of the C++ source:
`namespace Comm` (high level send/receive) plus the parts of `namespace RF`
(mode switching, FIFO reset, byte transmit) that the Comm layer drives.
Machine integers are modelled as `Nat` with explicit `% 256` / `% 65536`
where the C types (`uint8_t`, `uint16_t`) truncate.  The `volatile struct
State` is a Lean structure; the fixed-size buffers are `List Nat` of the
static sizes (`frame_t` is 264 bytes, `packet_t` is 260 bytes).  Hardware
interaction is recorded in ghost trace fields: `txBytes` lists the bytes
handed to `RF::Transmit`, `rxStores` lists the buffer offsets stored by the
RX interrupt path, `fifoResets` counts FIFO reset command pairs.

The source fixes `COMM_TXRETRY = 1` and `COMM_RXRETRY = 1` by preprocessor
definition; both are kept as a `Config` record so that the spec's
"retry disabled" branches (textually present in the source) can be stated.
-/

namespace RFM12

/-- `SynchSize` from the source: 4 synchronization bytes AA AA 2D D4. -/
def SynchSize : Nat := 4

/-- `COMM_HEADSIZE = sizeof(len_t) + sizeof(ctr_t)` with CTR enabled. -/
def COMM_HEADSIZE : Nat := 2

/-- `COMM_TAILSIZE = sizeof(crc_t)` with CRC enabled. -/
def COMM_TAILSIZE : Nat := 2

/-- `COMM_PACKETSIZE = COMM_HEADSIZE + COMM_TAILSIZE`. -/
def COMM_PACKETSIZE : Nat := COMM_HEADSIZE + COMM_TAILSIZE

/-- `Comm::MaxMesgSize`: maximal size of data in one packet. -/
def MaxMesgSize : Nat := 256

/-- `Comm::CRCInit = 0xFFFF`. -/
def CRCInit : Nat := 0xFFFF

/-- `_crc_ccitt_update` from avr-libc `<util/crc16.h>`, the CRC routine the
source includes and calls.  `crc` is a `uint16_t`, `data` a `uint8_t`:
  data ^= lo8(crc); data ^= data << 4;
  return (((uint16_t)data << 8) | hi8(crc)) ^ (uint8_t)(data >> 4)
         ^ ((uint16_t)data << 3);
-/
def crc_ccitt_update (crc data : Nat) : Nat :=
  let crc0 := crc % 65536
  let d1 := (data % 256) ^^^ (crc0 % 256)
  let d2 := (d1 ^^^ (d1 <<< 4)) % 256
  (((d2 <<< 8) ||| (crc0 / 256)) ^^^ (d2 >>> 4) ^^^ (d2 <<< 3)) % 65536

/-- Fold `crc_ccitt_update` over a byte list (the do/while loops in
`TXInit` and the per-byte update in the RX interrupt path). -/
def crcFold (init : Nat) (bs : List Nat) : Nat :=
  bs.foldl crc_ccitt_update init

/-- `enum Mode` from the source: MI idle, Mr listening for header,
MR receiving body, MX frame ready, Mt transmit done, MT transmitting. -/
inductive Mode where
  | MI | Mr | MR | MX | Mt | MT
deriving DecidableEq, Repr

/-- `RF::RF_Mode`: hardware power-management mode. -/
inductive RFMode where
  | TX | RX | DEF | ECO
deriving DecidableEq, Repr

/-- The `COMM_TXRETRY` / `COMM_RXRETRY` preprocessor switches
(both set to 1 in the source). -/
structure Config where
  txretry : Bool
  rxretry : Bool
deriving DecidableEq, Repr

/-- The source's configuration: `COMM_TXRETRY = 1`, `COMM_RXRETRY = 1`. -/
def defaultCfg : Config := ⟨true, true⟩

/-- The shared `volatile struct State` plus the tracked hardware mode
`RF::CurMode`, the interrupt-enable bit, and ghost hardware traces.
`sendBuff` is `frame_t.Raw` (264 bytes), `recvBuff` is `packet_t`
(260 bytes).  Cursors are buffer offsets; `none` models a NULL pointer. -/
structure CommState where
  sendBuff : List Nat
  sendCur : Option Nat
  sendEnd : Option Nat
  recvBuff : List Nat
  recvCur : Option Nat
  recvEnd : Option Nat
  mode : Mode
  packetsTX : Nat
  packetsRX : Nat
  ctrErr : Nat
  crcErr : Nat
  crc : Nat
  hwMode : RFMode
  irqEnabled : Bool
  fifoResets : Nat
  txBytes : List Nat
  rxStores : List Nat
deriving DecidableEq, Repr

/-- `RF::Mode(m)`: set `CurMode` and send the power-management command;
for RX it additionally sends the FIFO off/on pair (a FIFO reset, exactly
the pair `RF::FIFOReset` sends). -/
def RFSetMode (s : CommState) (m : RFMode) : CommState :=
  match m with
  | RFMode.RX => { s with hwMode := m, fifoResets := s.fifoResets + 1 }
  | _ => { s with hwMode := m }

/-- `Comm::Idle()`: interrupt off, hardware to ECO, mode MI. -/
def CommIdle (s : CommState) : CommState :=
  let s := { s with irqEnabled := false }
  let s := RFSetMode s RFMode.ECO
  { s with mode := Mode.MI }

/-- The state right after `Comm::Init()`: the static zero-initialised
`State` (with the constant synch pattern in `SendBuff`) followed by
`Idle()`. -/
def initState : CommState :=
  { sendBuff := [0xAA, 0xAA, 0x2D, 0xD4] ++ List.replicate 260 0
    sendCur := none
    sendEnd := none
    recvBuff := List.replicate 260 0
    recvCur := none
    recvEnd := none
    mode := Mode.MI
    packetsTX := 0
    packetsRX := 0
    ctrErr := 0
    crcErr := 0
    crc := 0
    hwMode := RFMode.ECO
    irqEnabled := false
    fifoResets := 0
    txBytes := []
    rxStores := [] }

/-- `Comm::RXInit()`: interrupt off, switch hardware to RX if needed,
mode Mr, CRC reset, receive cursor at buffer start with end at
`COMM_HEADSIZE - 1`, interrupt on. -/
def RXInit (s : CommState) : CommState :=
  let s := { s with irqEnabled := false }
  let s := if s.hwMode ≠ RFMode.RX then RFSetMode s RFMode.RX else s
  let s := { s with mode := Mode.Mr, crc := CRCInit,
                    recvCur := some 0,
                    recvEnd := some (0 + COMM_HEADSIZE - 1) }
  { s with irqEnabled := true }

/-- `Comm::RXGetPacket(len_t *Length)`: if mode is not MX set `*Length = 0`
and return NULL; else set `*Length = RecvBuff.Length` and return `Mesg`
(the buffer region starting at offset 2).  The function only reads `State`,
so the state component of the result is the input state. -/
def RXGetPacket (s : CommState) : CommState × Nat × Option (List Nat) :=
  if s.mode ≠ Mode.MX then (s, 0, none)
  else (s, s.recvBuff.getD 0 0, some (s.recvBuff.drop 2))

/-- `Comm::RXGetConfig()`: the Config nibble (bits 4..7) of the received
control byte. -/
def RXGetConfig (s : CommState) : Nat :=
  (s.recvBuff.getD 1 0) / 16

/-- `Comm::TXConfig(Cfg)`: copy the 4 LSB of `Cfg` into the Config bitfield
(bits 4..7 of the control byte at frame offset 5), leaving the Control
nibble (bits 0..3) unchanged. -/
def TXConfig (s : CommState) (cfg : Nat) : CommState :=
  { s with sendBuff :=
      s.sendBuff.set 5 ((cfg % 16) * 16 + (s.sendBuff.getD 5 0) % 16) }

/-- The caller writing `payload` into the buffer returned by
`Comm::TXGetBuff()` (the `Mesg` field, frame offset `SynchSize +
COMM_HEADSIZE = 6`).  One write per byte, in order. -/
def writeList (buf : List Nat) (i : Nat) (bs : List Nat) : List Nat :=
  match bs with
  | [] => buf
  | b :: rest => writeList (buf.set i b) (i + 1) rest

/-- Fill the TX message buffer (`TXGetBuff` region) with a payload. -/
def TXSetBuff (s : CommState) (payload : List Nat) : CommState :=
  { s with sendBuff := writeList s.sendBuff 6 payload }

/-- `Comm::TXInit(len_t Length)`.  `Length` is a `uint8_t` parameter, so it
is truncated mod 256 on entry.  Steps, in source order: interrupt off;
hardware to TX if needed; store `Length` at frame offset 4; store
`~Length` into the 4-bit Control field of the control byte at offset 5;
`SendCur = Raw + 1`; `SendEnd = SendCur + SynchSize + Length +
COMM_PACKETSIZE + 1`; mode MT; transmit `Raw[0]`; interrupt on;
compute the CRC over `Length + COMM_HEADSIZE` bytes starting at
`Raw + SynchSize` and append it low byte first. -/
def TXInit (s : CommState) (LengthArg : Nat) : CommState :=
  let Length := LengthArg % 256
  let s := { s with irqEnabled := false }
  let s := if s.hwMode ≠ RFMode.TX then RFSetMode s RFMode.TX else s
  let s := { s with sendBuff := s.sendBuff.set 4 Length }
  let ctrlByte := ((s.sendBuff.getD 5 0) / 16) * 16 + ((Length ^^^ 0xFF) % 16)
  let s := { s with sendBuff := s.sendBuff.set 5 ctrlByte }
  let s := { s with sendCur := some 1,
                    sendEnd := some (1 + SynchSize + Length + COMM_PACKETSIZE + 1) }
  let s := { s with mode := Mode.MT }
  let s := { s with txBytes := s.txBytes ++ [s.sendBuff.getD 0 0] }
  let s := { s with irqEnabled := true }
  let c := crcFold CRCInit ((s.sendBuff.drop SynchSize).take (Length + COMM_HEADSIZE))
  let s := { s with crc := c }
  let buf := s.sendBuff.set (SynchSize + Length + COMM_HEADSIZE) (c % 256)
  let buf := buf.set (SynchSize + Length + COMM_HEADSIZE + 1) (c / 256)
  { s with sendBuff := buf }

/-- The `ResetRX` label of the interrupt handler: with RX retry, FIFO
reset and re-arm (mode Mr, CRC re-initialised, cursors back to the header
window) without touching the hardware mode; without retry, mode MI,
hardware to DEF, cursors NULLed, interrupt off. -/
def ResetRX (cfg : Config) (s : CommState) : CommState :=
  if cfg.rxretry then
    { s with fifoResets := s.fifoResets + 1, mode := Mode.Mr, crc := CRCInit,
             recvCur := some 0, recvEnd := some (0 + COMM_HEADSIZE - 1) }
  else
    let s := { s with mode := Mode.MI }
    let s := RFSetMode s RFMode.DEF
    { s with recvCur := none, recvEnd := none, irqEnabled := false }

/-- `ISR(RF_IRQ_vect)`.  `rgur` is the RGUR/FFOV bit of the status word the
handler reads; `fifoByte` is the byte read from the hardware FIFO on the RX
path (an 8-bit register, hence `% 256`).  Mirrors the source's control
flow: RGUR handling first (TX branch when mode is MT, otherwise the RX
statistics bump and `goto ResetRX`); then the TX per-byte branch; then the
RX store/advance logic with the header checks at the header end and the
CRC residue check at the body end. -/
def ISR (cfg : Config) (s : CommState) (rgur : Bool) (fifoByte : Nat) : CommState :=
  if rgur then
    if s.mode = Mode.MT then
      let s := { s with ctrErr := s.ctrErr + 1 }
      if cfg.txretry then
        { s with sendCur := some 1,
                 txBytes := s.txBytes ++ [s.sendBuff.getD 0 0] }
      else
        let s := { s with sendCur := none, sendEnd := none, mode := Mode.MI }
        let s := RFSetMode s RFMode.DEF
        { s with irqEnabled := false }
    else
      ResetRX cfg { s with ctrErr := s.ctrErr + 1 }
  else if s.mode = Mode.MT then
    if s.sendCur = s.sendEnd then
      { s with mode := Mode.Mt, packetsTX := s.packetsTX + 1,
               irqEnabled := false }
    else
      match s.sendCur with
      | some c =>
          { s with txBytes := s.txBytes ++ [s.sendBuff.getD c 0],
                   sendCur := some (c + 1) }
      | none => s
  else
    match s.recvCur, s.recvEnd with
    | some c, some e =>
      let b := fifoByte % 256
      let s := { s with recvBuff := s.recvBuff.set c b,
                        rxStores := s.rxStores ++ [c],
                        crc := crc_ccitt_update s.crc b }
      if c = e then
        if s.mode = Mode.Mr then
          if (s.recvBuff.getD 1 0) % 16 ≠ ((s.recvBuff.getD 0 0) ^^^ 0xFF) % 16 then
            ResetRX cfg { s with ctrErr := s.ctrErr + 1 }
          else if s.recvBuff.getD 0 0 = 0 then
            ResetRX cfg { s with ctrErr := s.ctrErr + 1 }
          else
            { s with recvEnd := some (c + s.recvBuff.getD 0 0 + COMM_TAILSIZE),
                     mode := Mode.MR, recvCur := some (c + 1) }
        else
          if s.crc = 0 then
            let s := RFSetMode s RFMode.DEF
            { s with irqEnabled := false, packetsRX := s.packetsRX + 1,
                     mode := Mode.MX }
          else
            ResetRX cfg { s with crcErr := s.crcErr + 1 }
      else
        { s with recvCur := some (c + 1) }
    | _, _ => s

/-- Feed a list of received bytes to the interrupt handler (one normal
FFIT interrupt per byte, no error flag). -/
def feed (cfg : Config) (s : CommState) (bs : List Nat) : CommState :=
  bs.foldl (fun st b => ISR cfg st false b) s

/-- Run `n` normal (RGIT) transmit-side interrupt invocations. -/
def txRun (cfg : Config) (s : CommState) : Nat → CommState
  | 0 => s
  | n + 1 => txRun cfg (ISR cfg s false 0) n

/-- Run the interrupt handler over a list of events
(error flag, FIFO byte). -/
def run (cfg : Config) (s : CommState) (evs : List (Bool × Nat)) : CommState :=
  evs.foldl (fun st ev => ISR cfg st ev.1 ev.2) s

/-- The packet part of the built frame: the bytes following the 4-byte
synchronization pattern (length, control, payload, two CRC bytes) which
the receiving side's FIFO delivers after pattern detection. -/
def builtPacket (s : CommState) (len : Nat) : List Nat :=
  (s.sendBuff.drop SynchSize).take (len + COMM_PACKETSIZE)

/-- Bytes read out of a buffer through `getD` (out-of-range reads default
to 0): the sequence `buf[c], buf[c+1], ..., buf[c+n-1]`. -/
def sliceD (buf : List Nat) (c n : Nat) : List Nat :=
  (List.range n).map (fun i => buf.getD (c + i) 0)

/-- Balanced exhaustive check of `p` on the interval from `a` of width `2 ^ d`. -/
def chkPow (p : Nat → Bool) : Nat → Nat → Bool
  | a, 0 => p a
  | a, d + 1 => chkPow p a d && chkPow p (a + 2 ^ d) d

/-- Safety invariant of the receive machinery: all recorded stores are in
bounds, the buffer holds bytes and keeps its static 260-byte size, and the
cursor pair (when not NULL) satisfies `cur ≤ end ≤ 258`, with the end
pinned to the header window while listening for a header. -/
def RxInv (s : CommState) : Prop :=
  (∀ i ∈ s.rxStores, i ≤ 258) ∧
  (∀ x ∈ s.recvBuff, x ≤ 255) ∧
  s.recvBuff.length = 260 ∧
  (∀ c e, s.recvCur = some c → s.recvEnd = some e →
     c ≤ e ∧ e ≤ 258 ∧ (s.mode = Mode.Mr → e = 1))

/-- The CRC the spec's words describe for C2: CRC-16/CCITT with initial
value 0xFFFF accumulated over the control byte and the payload only, the
length byte excluded.  Kept for comparison against the CRC the source
actually computes (which starts at the length byte). -/
def crcOverControlPayload (ctrl : Nat) (payload : List Nat) : Nat :=
  crcFold CRCInit (ctrl :: payload)

end RFM12

namespace RFM12

/-! ### Arithmetic facts about the CRC -/

theorem crc_update_lt (c d : Nat) : crc_ccitt_update c d < 65536 :=
  Nat.mod_lt _ (by norm_num)

theorem crcFold_lt (bs : List Nat) : ∀ init, init < 65536 → crcFold init bs < 65536 := by
  induction bs with
  | nil => intro init h; simpa [crcFold] using h
  | cons b bs ih =>
    intro init h
    rw [crcFold, List.foldl_cons]
    exact ih (crc_ccitt_update init b) (crc_update_lt init b)

theorem crc_update_append_lo (S : Nat) (h : S < 65536) :
    crc_ccitt_update S (S % 256) = S / 256 := by
  have h1 : S % 65536 = S := Nat.mod_eq_of_lt h
  have h2 : S / 256 < 65536 := lt_of_le_of_lt (Nat.div_le_self S 256) h
  simp [crc_ccitt_update, h1, Nat.mod_mod_of_dvd, Nat.xor_self, Nat.zero_shiftLeft,
    Nat.zero_shiftRight, Nat.mod_eq_of_lt h2]

theorem crc_update_append_hi (T : Nat) (h : T < 256) :
    crc_ccitt_update T T = 0 := by
  have h1 : T % 65536 = T := Nat.mod_eq_of_lt (lt_trans h (by norm_num))
  have h2 : T % 256 = T := Nat.mod_eq_of_lt h
  have h3 : T / 256 = 0 := Nat.div_eq_of_lt h
  simp [crc_ccitt_update, h1, h2, h3, Nat.xor_self, Nat.zero_shiftLeft, Nat.zero_shiftRight]

/-- Appending the accumulator low byte then high byte drives the running
CRC to the zero residue (the "check for zero residue" technique the source
relies on). -/
theorem crc_residue_zero (S : Nat) (h : S < 65536) :
    crc_ccitt_update (crc_ccitt_update S (S % 256)) (S / 256) = 0 := by
  rw [crc_update_append_lo S h]
  exact crc_update_append_hi (S / 256) (Nat.div_lt_of_lt_mul (by norm_num at h ⊢; omega))

theorem chkPow_spec (p : Nat → Bool) :
    ∀ d a, chkPow p a d = true → ∀ i, i < 2 ^ d → p (a + i) = true := by
  intro d
  induction d with
  | zero =>
    intro a h i hi
    interval_cases i
    simpa [chkPow] using h
  | succ d ih =>
    intro a h i hi
    rw [chkPow, Bool.and_eq_true] at h
    by_cases hc : i < 2 ^ d
    · exact ih a h.1 i hc
    · have h2 : i - 2 ^ d < 2 ^ d := by
        have := hi
        rw [Nat.pow_succ] at this
        omega
      have h3 := ih (a + 2 ^ d) h.2 (i - 2 ^ d) h2
      have he : a + 2 ^ d + (i - 2 ^ d) = a + i := by omega
      rwa [he] at h3

theorem crc_update_flip_lo (S : Nat) (h : S < 65536) :
    crc_ccitt_update S ((S % 256) ^^^ 0xFF) =
      ((3840 ||| (S / 256)) ^^^ 120) % 65536 := by
  have h1 : S % 65536 = S := Nat.mod_eq_of_lt h
  have hlt : (S % 256) ^^^ 0xFF < 256 :=
    Nat.xor_lt_two_pow (n := 8) (Nat.mod_lt _ (by norm_num)) (by norm_num)
  have h2 : ((S % 256) ^^^ 0xFF) % 256 = (S % 256) ^^^ 0xFF := Nat.mod_eq_of_lt hlt
  have h3 : ((S % 256) ^^^ 0xFF) ^^^ (S % 256) = 0xFF := by
    rw [Nat.xor_comm (S % 256) 0xFF, Nat.xor_assoc, Nat.xor_self, Nat.xor_zero]
  have e1 : (0xFF ^^^ (0xFF : Nat) <<< 4) % 256 = 15 := by rfl
  have e2 : (15 : Nat) <<< 8 = 3840 := by rfl
  have e3 : (15 : Nat) >>> 4 = 0 := by rfl
  have e4 : (15 : Nat) <<< 3 = 120 := by rfl
  simp only [crc_ccitt_update, h1, h2, h3, e1, e2, e3, e4, Nat.xor_zero]

theorem flipCheck :
    chkPow (fun hi =>
      decide (crc_ccitt_update (((3840 ||| hi) ^^^ 120) % 65536) hi ≠ 0)) 0 8 = true := by
  rfl

/-- Replacing the trailer low byte by its bitwise complement always leaves
a non-zero residue after the trailer is consumed. -/
theorem crc_flip_nonzero (S : Nat) (h : S < 65536) :
    crc_ccitt_update (crc_ccitt_update S ((S % 256) ^^^ 0xFF)) (S / 256) ≠ 0 := by
  rw [crc_update_flip_lo S h]
  have hdiv : S / 256 < 2 ^ 8 := Nat.div_lt_of_lt_mul (by omega)
  have h2 := chkPow_spec _ 8 0 flipCheck (S / 256) hdiv
  rw [Nat.zero_add] at h2
  exact of_decide_eq_true h2

/-! ### Buffer write helpers -/

theorem writeList_nil (buf : List Nat) (i : Nat) : writeList buf i [] = buf := rfl

theorem writeList_cons (buf : List Nat) (i b : Nat) (bs : List Nat) :
    writeList buf i (b :: bs) = writeList (buf.set i b) (i + 1) bs := rfl

theorem writeList_append_chunk (l1 : List Nat) :
    ∀ (buf : List Nat) (i : Nat) (l2 : List Nat),
      writeList buf i (l1 ++ l2) = writeList (writeList buf i l1) (i + l1.length) l2 := by
  induction l1 with
  | nil => intro buf i l2; simp [writeList]
  | cons b bs ih =>
    intro buf i l2
    rw [List.cons_append, writeList_cons, writeList_cons, ih]
    have h : i + 1 + bs.length = i + (b :: bs).length := by
      simp only [List.length_cons]; omega
    rw [h]

theorem writeList_length (bs : List Nat) :
    ∀ (buf : List Nat) (i : Nat), (writeList buf i bs).length = buf.length := by
  induction bs with
  | nil => intro buf i; rfl
  | cons b rest ih => intro buf i; rw [writeList_cons, ih, List.length_set]

/-- A sequential write of `bs` at offset `i` splices `bs` into the buffer. -/
theorem writeList_eq (bs : List Nat) :
    ∀ (buf : List Nat) (i : Nat), i + bs.length ≤ buf.length →
      writeList buf i bs = buf.take i ++ bs ++ buf.drop (i + bs.length) := by
  induction bs with
  | nil => intro buf i _; simp [writeList]
  | cons b rest ih =>
    intro buf i h
    have hi : i < buf.length := by simp at h; omega
    have hlen : (buf.set i b).length = buf.length := List.length_set buf i b
    have hltake : (buf.take i).length = i := by
      rw [List.length_take]; omega
    have hA : (buf.set i b).take (i + 1) = buf.take i ++ [b] := by
      rw [List.set_eq_take_cons_drop b hi, List.take_append_eq_append_take, hltake]
      have e1 : (buf.take i).take (i + 1) = buf.take i := by
        rw [List.take_take]
        congr 1
        omega
      have e2 : i + 1 - i = 1 := by omega
      rw [e1, e2, List.take_succ_cons, List.take_zero]
    have hB : (buf.set i b).drop (i + 1 + rest.length) = buf.drop (i + 1 + rest.length) := by
      rw [List.set_eq_take_cons_drop b hi, List.drop_append_eq_append_drop, hltake]
      have e1 : (buf.take i).drop (i + 1 + rest.length) = [] :=
        List.drop_eq_nil_of_le (by omega)
      have e2 : i + 1 + rest.length - i = rest.length + 1 := by omega
      rw [e1, e2, List.nil_append, List.drop_succ_cons, List.drop_drop]
    rw [writeList_cons, ih _ (i + 1) (by simp at h ⊢; omega), hA, hB]
    have e3 : i + 1 + rest.length = i + (b :: rest).length := by
      simp only [List.length_cons]; omega
    rw [e3]
    simp [List.append_assoc]

end RFM12

namespace RFM12

/-! ### Reading slices through getD -/

theorem sliceD_zero (buf : List Nat) (c : Nat) : sliceD buf c 0 = [] := rfl

theorem sliceD_succ (buf : List Nat) (c n : Nat) :
    sliceD buf c (n + 1) = buf.getD c 0 :: sliceD buf (c + 1) n := by
  rw [sliceD, List.range_succ_eq_map n, List.map_cons, List.map_map]
  rw [sliceD]
  congr 1
  apply List.map_congr_left
  intro i _
  simp only [Function.comp_apply]
  congr 1
  omega

theorem sliceD_length (buf : List Nat) (c n : Nat) : (sliceD buf c n).length = n := by
  rw [sliceD, List.length_map, List.length_range]

theorem sliceD_eq_take (buf : List Nat) : ∀ n, n ≤ buf.length → sliceD buf 0 n = buf.take n := by
  have general : ∀ n c, c + n ≤ buf.length → sliceD buf c n = (buf.drop c).take n := by
    intro n
    induction n with
    | zero => intro c _; simp [sliceD_zero]
    | succ m ih =>
      intro c h
      rw [sliceD_succ, ih (c + 1) (by omega)]
      have hc : c < buf.length := by omega
      rw [List.getD_eq_getElem?_getD, List.getElem?_eq_getElem hc]
      rw [List.drop_eq_getElem_cons hc, List.take_succ_cons]
      rfl
  intro n h
  rw [general n 0 (by omega), List.drop_zero]

/-! ### Small-step characterizations of the interrupt handler -/

theorem feed_nil (cfg : Config) (s : CommState) : feed cfg s [] = s := rfl

theorem feed_cons (cfg : Config) (s : CommState) (b : Nat) (bs : List Nat) :
    feed cfg s (b :: bs) = feed cfg (ISR cfg s false b) bs := rfl

theorem feed_append (cfg : Config) (s : CommState) (l1 l2 : List Nat) :
    feed cfg s (l1 ++ l2) = feed cfg (feed cfg s l1) l2 := by
  rw [feed, feed, feed, List.foldl_append]

/-- An RX byte arriving with the cursor strictly before the end position:
store, fold into the CRC, advance. -/
theorem ISR_rx_store (cfg : Config) (s : CommState) (b c e : Nat)
    (hm : s.mode ≠ Mode.MT) (hc : s.recvCur = some c) (he : s.recvEnd = some e)
    (hne : c ≠ e) :
    ISR cfg s false b =
      { s with recvBuff := s.recvBuff.set c (b % 256),
               rxStores := s.rxStores ++ [c],
               crc := crc_ccitt_update s.crc (b % 256),
               recvCur := some (c + 1) } := by
  rw [ISR]
  simp only [Bool.false_eq_true, if_false, hm, if_neg, hc, he, hne]

end RFM12

namespace RFM12

/-- Header completion with a valid control byte and non-zero length:
switch to body reception with the end cursor at `cursor + length +
COMM_TAILSIZE`. -/
theorem ISR_rx_header_accept (cfg : Config) (s : CommState) (b c : Nat)
    (hm : s.mode = Mode.Mr) (hc : s.recvCur = some c) (he : s.recvEnd = some c)
    (hctrl : ((s.recvBuff.set c (b % 256)).getD 1 0) % 16 =
             (((s.recvBuff.set c (b % 256)).getD 0 0) ^^^ 0xFF) % 16)
    (hlen : (s.recvBuff.set c (b % 256)).getD 0 0 ≠ 0) :
    ISR cfg s false b =
      { s with recvBuff := s.recvBuff.set c (b % 256),
               rxStores := s.rxStores ++ [c],
               crc := crc_ccitt_update s.crc (b % 256),
               recvEnd := some (c + (s.recvBuff.set c (b % 256)).getD 0 0 + COMM_TAILSIZE),
               mode := Mode.MR,
               recvCur := some (c + 1) } := by
  have hmt : s.mode ≠ Mode.MT := by rw [hm]; intro hx; cases hx
  rw [ISR]
  simp only [Bool.false_eq_true, if_false, hmt, if_neg, hc, he, hm, if_pos, if_true,
    hctrl, hlen, ne_eq, not_true_eq_false, not_false_eq_true]
  simp [hctrl, hlen]

/-- Header completion with an invalid control byte: count the error and
run the `ResetRX` path. -/
theorem ISR_rx_header_reject_ctrl (cfg : Config) (s : CommState) (b c : Nat)
    (hm : s.mode = Mode.Mr) (hc : s.recvCur = some c) (he : s.recvEnd = some c)
    (hctrl : ((s.recvBuff.set c (b % 256)).getD 1 0) % 16 ≠
             (((s.recvBuff.set c (b % 256)).getD 0 0) ^^^ 0xFF) % 16) :
    ISR cfg s false b =
      ResetRX cfg
        { s with recvBuff := s.recvBuff.set c (b % 256),
                 rxStores := s.rxStores ++ [c],
                 crc := crc_ccitt_update s.crc (b % 256),
                 ctrErr := s.ctrErr + 1 } := by
  have hmt : s.mode ≠ Mode.MT := by rw [hm]; intro hx; cases hx
  rw [ISR]
  simp only [Bool.false_eq_true, if_false, hmt, if_neg, hc, he, hm, if_pos, if_true, hctrl]
  simp [hctrl]
  intro h1 h2
  simp only [List.getD_eq_getElem?_getD] at hctrl
  exact absurd h1 hctrl

/-- Header completion with a zero length field (control byte valid):
count the error and run the `ResetRX` path. -/
theorem ISR_rx_header_reject_len (cfg : Config) (s : CommState) (b c : Nat)
    (hm : s.mode = Mode.Mr) (hc : s.recvCur = some c) (he : s.recvEnd = some c)
    (hctrl : ((s.recvBuff.set c (b % 256)).getD 1 0) % 16 =
             (((s.recvBuff.set c (b % 256)).getD 0 0) ^^^ 0xFF) % 16)
    (hlen : (s.recvBuff.set c (b % 256)).getD 0 0 = 0) :
    ISR cfg s false b =
      ResetRX cfg
        { s with recvBuff := s.recvBuff.set c (b % 256),
                 rxStores := s.rxStores ++ [c],
                 crc := crc_ccitt_update s.crc (b % 256),
                 ctrErr := s.ctrErr + 1 } := by
  have hmt : s.mode ≠ Mode.MT := by rw [hm]; intro hx; cases hx
  rw [ISR]
  simp [hmt, hc, he, hm, hctrl, hlen]
  intro h1 h2
  simp only [List.getD_eq_getElem?_getD] at hlen
  exact absurd hlen h2

/-- Body completion with zero CRC residue: frame accepted, hardware to
default mode, interrupt off, RX success counter incremented, mode MX. -/
theorem ISR_rx_body_accept (cfg : Config) (s : CommState) (b c : Nat)
    (hmt : s.mode ≠ Mode.MT) (hmr : s.mode ≠ Mode.Mr)
    (hc : s.recvCur = some c) (he : s.recvEnd = some c)
    (hcrc : crc_ccitt_update s.crc (b % 256) = 0) :
    ISR cfg s false b =
      { s with recvBuff := s.recvBuff.set c (b % 256),
               rxStores := s.rxStores ++ [c],
               crc := 0,
               hwMode := RFMode.DEF,
               irqEnabled := false,
               packetsRX := s.packetsRX + 1,
               mode := Mode.MX } := by
  rw [ISR]
  simp [hmt, hmr, hc, he, hcrc, RFSetMode]

/-- Body completion with non-zero CRC residue: count the CRC error and run
the `ResetRX` path. -/
theorem ISR_rx_body_reject (cfg : Config) (s : CommState) (b c : Nat)
    (hmt : s.mode ≠ Mode.MT) (hmr : s.mode ≠ Mode.Mr)
    (hc : s.recvCur = some c) (he : s.recvEnd = some c)
    (hcrc : crc_ccitt_update s.crc (b % 256) ≠ 0) :
    ISR cfg s false b =
      ResetRX cfg
        { s with recvBuff := s.recvBuff.set c (b % 256),
                 rxStores := s.rxStores ++ [c],
                 crc := crc_ccitt_update s.crc (b % 256),
                 crcErr := s.crcErr + 1 } := by
  rw [ISR]
  simp [hmt, hmr, hc, he, hcrc]

/-- Transmit-side interrupt with bytes remaining: hand `SendBuff[cursor]`
to the transmitter and advance. -/
theorem ISR_tx_send (cfg : Config) (s : CommState) (b c : Nat)
    (hm : s.mode = Mode.MT) (hc : s.sendCur = some c) (hne : s.sendCur ≠ s.sendEnd) :
    ISR cfg s false b =
      { s with txBytes := s.txBytes ++ [s.sendBuff.getD c 0],
               sendCur := some (c + 1) } := by
  have hne2 : some c ≠ s.sendEnd := by rw [← hc]; exact hne
  rw [ISR]
  simp [hm, hne2, hc]

/-- Transmit-side interrupt with the cursor at the end: transmit done. -/
theorem ISR_tx_done (cfg : Config) (s : CommState) (b : Nat)
    (hm : s.mode = Mode.MT) (heq : s.sendCur = s.sendEnd) :
    ISR cfg s false b =
      { s with mode := Mode.Mt, packetsTX := s.packetsTX + 1,
               irqEnabled := false } := by
  rw [ISR]
  simp [hm, heq]

/-- RGUR (transmit underrun) while transmitting, with TX retry compiled
in: count the error, rewind the cursor, re-issue the first frame byte. -/
theorem ISR_tx_rgur_retry (cfg : Config) (s : CommState) (b : Nat)
    (hm : s.mode = Mode.MT) (hr : cfg.txretry = true) :
    ISR cfg s true b =
      { s with ctrErr := s.ctrErr + 1,
               sendCur := some 1,
               txBytes := s.txBytes ++ [s.sendBuff.getD 0 0] } := by
  rw [ISR]
  simp [hm, hr]

/-- RGUR while transmitting, with TX retry disabled: cursors cleared,
mode MI, hardware to default, interrupt off. -/
theorem ISR_tx_rgur_abort (cfg : Config) (s : CommState) (b : Nat)
    (hm : s.mode = Mode.MT) (hr : cfg.txretry = false) :
    ISR cfg s true b =
      { s with ctrErr := s.ctrErr + 1,
               sendCur := none, sendEnd := none,
               mode := Mode.MI, hwMode := RFMode.DEF,
               irqEnabled := false } := by
  rw [ISR]
  simp [hm, hr, RFSetMode]

end RFM12

namespace RFM12

/-- Feeding bytes while in body-reception mode with the cursor strictly
below the end for the whole batch: bytes are stored sequentially, folded
into the CRC, and the cursor advances; nothing else changes. -/
theorem feed_body_advance (cfg : Config) :
    ∀ (bs : List Nat) (s : CommState) (c e : Nat),
      s.mode = Mode.MR → s.recvCur = some c → s.recvEnd = some e →
      c + bs.length ≤ e → (∀ x ∈ bs, x < 256) →
      feed cfg s bs =
        { s with recvBuff := writeList s.recvBuff c bs,
                 rxStores := s.rxStores ++ (List.range bs.length).map (c + ·),
                 crc := crcFold s.crc bs,
                 recvCur := some (c + bs.length) } := by
  intro bs
  induction bs with
  | nil =>
    intro s c e hm hc he _ _
    simp [feed_nil, writeList_nil, crcFold, ← hc]
  | cons b rest ih =>
    intro s c e hm hc he hle hlt
    have hb : b % 256 = b := Nat.mod_eq_of_lt (hlt b (List.mem_cons_self b rest))
    have hne : c ≠ e := by simp at hle; omega
    rw [feed_cons, ISR_rx_store cfg s b c e (by rw [hm]; intro hx; cases hx) hc he hne]
    rw [ih _ (c + 1) e (by simp [hm]) (by simp) (by simp [he])
        (by simp at hle ⊢; omega) (fun x hx => hlt x (List.mem_cons_of_mem b hx))]
    have e1 : c + 1 + rest.length = c + (b :: rest).length := by
      rw [List.length_cons]; omega
    have e2 : crcFold (crc_ccitt_update s.crc b) rest = crcFold s.crc (b :: rest) := by
      rw [crcFold, crcFold, List.foldl_cons]
    have e3 : (s.rxStores ++ [c]) ++ List.map (fun x => c + 1 + x) (List.range rest.length) =
        s.rxStores ++ List.map (fun x => c + x) (List.range (b :: rest).length) := by
      rw [List.append_assoc]
      congr 1
      rw [List.singleton_append, List.length_cons, List.range_succ_eq_map,
        List.map_cons, List.map_map]
      simp only [Nat.add_zero]
      congr 1
      apply List.map_congr_left
      intro i _
      simp only [Function.comp_apply]
      omega
    rw [writeList_cons, hb, e1, e2, e3]

end RFM12

namespace RFM12

theorem txRun_succ (cfg : Config) (s : CommState) (n : Nat) :
    txRun cfg s (n + 1) = txRun cfg (ISR cfg s false 0) n := rfl

/-- From a transmitting state with `n` bytes left before the end cursor,
`n + 1` further interrupts transmit exactly the bytes from the cursor up
to (excluding) the end, then declare transmit done, bump the TX success
counter and disable the interrupt, leaving everything else (in particular
the hardware mode) unchanged. -/
theorem txRun_completes (cfg : Config) :
    ∀ (n : Nat) (s : CommState) (c e : Nat),
      s.mode = Mode.MT → s.sendCur = some c → s.sendEnd = some e →
      c + n = e →
      txRun cfg s (n + 1) =
        { s with mode := Mode.Mt, packetsTX := s.packetsTX + 1,
                 irqEnabled := false, sendCur := some e,
                 txBytes := s.txBytes ++ sliceD s.sendBuff c n } := by
  intro n
  induction n with
  | zero =>
    intro s c e hm hc he hce
    have hce0 : c = e := by omega
    have hee : s.sendCur = s.sendEnd := by rw [hc, he, hce0]
    rw [txRun_succ, ISR_tx_done cfg s 0 hm hee]
    rw [txRun]
    have hce2 : some e = s.sendCur := by rw [hc, hce0]
    simp [sliceD_zero, ← hce2]
  | succ m ih =>
    intro s c e hm hc he hce
    have hne : s.sendCur ≠ s.sendEnd := by
      rw [hc, he]
      intro hx
      injection hx with hx2
      omega
    rw [txRun_succ, ISR_tx_send cfg s 0 c hm hc hne]
    rw [ih _ (c + 1) e (by simp [hm]) (by simp) (by simp [he]) (by omega)]
    rw [sliceD_succ, List.append_assoc, List.singleton_append]

end RFM12

namespace RFM12

/-- RGUR/FFOV hardware error while not transmitting: bump the control
error counter and run the `ResetRX` path. -/
theorem ISR_rgur_rx (cfg : Config) (s : CommState) (b : Nat)
    (hm : s.mode ≠ Mode.MT) :
    ISR cfg s true b = ResetRX cfg { s with ctrErr := s.ctrErr + 1 } := by
  rw [ISR]
  simp [hm]

theorem getD_le_of_mem_le (l : List Nat) (i : Nat) (h : ∀ x ∈ l, x ≤ 255) :
    l.getD i 0 ≤ 255 := by
  rw [List.getD_eq_getElem?_getD]
  cases hg : l[i]? with
  | none => simp
  | some v =>
    have hv : v ∈ l := List.getElem?_mem hg
    simpa using h v hv

theorem RxInv_ResetRX (cfg : Config) (s : CommState)
    (h1 : ∀ i ∈ s.rxStores, i ≤ 258) (h2 : ∀ x ∈ s.recvBuff, x ≤ 255)
    (h3 : s.recvBuff.length = 260) : RxInv (ResetRX cfg s) := by
  rw [ResetRX]
  by_cases hr : cfg.rxretry = true
  · simp only [hr, if_true, if_pos]
    refine ⟨h1, h2, h3, ?_⟩
    intro c e hc he
    simp at hc he
    subst hc
    subst he
    simp [COMM_HEADSIZE]
  · simp only [hr, if_false, Bool.not_eq_true] at *
    rw [if_neg (by simp [hr])]
    refine ⟨h1, h2, h3, ?_⟩
    intro c e hc he
    simp [RFSetMode] at hc

theorem RxInv_of_same_rx_fields (s t : CommState) (h : RxInv s)
    (h1 : t.rxStores = s.rxStores) (h2 : t.recvBuff = s.recvBuff)
    (h3 : t.recvCur = s.recvCur) (h4 : t.recvEnd = s.recvEnd)
    (h5 : t.mode = Mode.Mr → s.mode = Mode.Mr) : RxInv t := by
  obtain ⟨i1, i2, i3, i4⟩ := h
  refine ⟨h1 ▸ i1, h2 ▸ i2, h2 ▸ i3, ?_⟩
  intro c e hc he
  rw [h3] at hc
  rw [h4] at he
  obtain ⟨j1, j2, j3⟩ := i4 c e hc he
  exact ⟨j1, j2, fun hmr => j3 (h5 hmr)⟩

/-- Every interrupt invocation preserves the receive-safety invariant. -/
theorem ISR_preserves_RxInv (cfg : Config) (s : CommState) (rg : Bool) (b : Nat)
    (h : RxInv s) : RxInv (ISR cfg s rg b) := by
  obtain ⟨h1, h2, h3, h4⟩ := h
  cases rg with
  | true =>
    by_cases hm : s.mode = Mode.MT
    · by_cases hr : cfg.txretry = true
      · rw [ISR_tx_rgur_retry cfg s b hm hr]
        exact RxInv_of_same_rx_fields s _ ⟨h1, h2, h3, h4⟩ rfl rfl rfl rfl (fun hx => hx)
      · rw [ISR_tx_rgur_abort cfg s b hm (by simpa using hr)]
        exact RxInv_of_same_rx_fields s _ ⟨h1, h2, h3, h4⟩ rfl rfl rfl rfl
          (fun hx => by simp at hx)
    · rw [ISR_rgur_rx cfg s b hm]
      exact RxInv_ResetRX cfg _ h1 h2 h3
  | false =>
    by_cases hm : s.mode = Mode.MT
    · by_cases heq : s.sendCur = s.sendEnd
      · rw [ISR_tx_done cfg s b hm heq]
        exact RxInv_of_same_rx_fields s _ ⟨h1, h2, h3, h4⟩ rfl rfl rfl rfl
          (fun hx => by simp at hx)
      · cases hcur : s.sendCur with
        | none =>
          have hne : (none : Option Nat) ≠ s.sendEnd := by rw [← hcur]; exact heq
          rw [ISR]
          simp only [hm, hcur, Bool.false_eq_true, if_false, if_true, if_pos, if_neg hne]
          exact ⟨h1, h2, h3, h4⟩
        | some c =>
          rw [ISR_tx_send cfg s b c hm hcur heq]
          exact RxInv_of_same_rx_fields s _ ⟨h1, h2, h3, h4⟩ rfl rfl rfl rfl (fun hx => hx)
    · cases hcur : s.recvCur with
      | none =>
        have hres : ISR cfg s false b = s := by
          rw [ISR]
          simp only [hm, hcur, Bool.false_eq_true, if_false, if_neg]
        rw [hres]
        exact ⟨h1, h2, h3, h4⟩
      | some c =>
        cases hend : s.recvEnd with
        | none =>
          have hres : ISR cfg s false b = s := by
            rw [ISR]
            simp only [hm, hcur, hend, Bool.false_eq_true, if_false, if_neg]
          rw [hres]
          exact ⟨h1, h2, h3, h4⟩
        | some e =>
          obtain ⟨j1, j2, j3⟩ := h4 c e hcur hend
          have hb255 : ∀ x ∈ s.recvBuff.set c (b % 256), x ≤ 255 := by
            intro x hx
            rcases List.mem_or_eq_of_mem_set hx with hx2 | hx2
            · exact h2 x hx2
            · omega
          have hlen2 : (s.recvBuff.set c (b % 256)).length = 260 := by
            rw [List.length_set]; exact h3
          have hst : ∀ i ∈ s.rxStores ++ [c], i ≤ 258 := by
            intro i hi
            rcases List.mem_append.mp hi with hi2 | hi2
            · exact h1 i hi2
            · simp at hi2; omega
          by_cases hce : c = e
          · by_cases hmr : s.mode = Mode.Mr
            · have he1 : e = 1 := j3 hmr
              by_cases hctrl : ((s.recvBuff.set c (b % 256)).getD 1 0) % 16 =
                  (((s.recvBuff.set c (b % 256)).getD 0 0) ^^^ 0xFF) % 16
              · by_cases hlen : (s.recvBuff.set c (b % 256)).getD 0 0 = 0
                · rw [ISR_rx_header_reject_len cfg s b c hmr hcur (by rw [hend, hce]) hctrl hlen]
                  exact RxInv_ResetRX cfg _ hst hb255 hlen2
                · rw [ISR_rx_header_accept cfg s b c hmr hcur (by rw [hend, hce]) hctrl hlen]
                  refine ⟨hst, hb255, hlen2, ?_⟩
                  intro c2 e2 hc2 he2
                  simp only [Option.some_inj] at hc2 he2
                  have hgle : (s.recvBuff.set c (b % 256)).getD 0 0 ≤ 255 :=
                    getD_le_of_mem_le _ 0 hb255
                  have hT : COMM_TAILSIZE = 2 := rfl
                  rw [hT] at he2
                  refine ⟨by omega, by omega, fun hx => by simp at hx⟩
              · rw [ISR_rx_header_reject_ctrl cfg s b c hmr hcur (by rw [hend, hce]) hctrl]
                exact RxInv_ResetRX cfg _ hst hb255 hlen2
            · by_cases hcrc : crc_ccitt_update s.crc (b % 256) = 0
              · rw [ISR_rx_body_accept cfg s b c hm hmr hcur (by rw [hend, hce]) hcrc]
                refine ⟨hst, hb255, hlen2, ?_⟩
                intro c2 e2 hc2 he2
                rw [hcur] at hc2
                rw [hend] at he2
                simp only [Option.some_inj] at hc2 he2
                refine ⟨by omega, by omega, fun hx => by simp at hx⟩
              · rw [ISR_rx_body_reject cfg s b c hm hmr hcur (by rw [hend, hce]) hcrc]
                exact RxInv_ResetRX cfg _ hst hb255 hlen2
          · rw [ISR_rx_store cfg s b c e hm hcur hend hce]
            refine ⟨hst, hb255, hlen2, ?_⟩
            intro c2 e2 hc2 he2
            simp only [Option.some_inj] at hc2
            rw [hend] at he2
            simp only [Option.some_inj] at he2
            refine ⟨by omega, by omega, ?_⟩
            intro hmx
            have he12 := j3 hmx
            omega

end RFM12

namespace RFM12

theorem run_preserves_RxInv (cfg : Config) (evs : List (Bool × Nat)) :
    ∀ (s : CommState), RxInv s → RxInv (run cfg s evs) := by
  induction evs with
  | nil => intro s h; exact h
  | cons ev rest ih =>
    intro s h
    rw [run, List.foldl_cons]
    exact ih _ (ISR_preserves_RxInv cfg s ev.1 ev.2 h)

/-- `RXInit` from the just-initialised state: hardware switched to RX
(one FIFO reset pair goes out), link listening for a header. -/
theorem RXInit_initState :
    RXInit initState =
      { sendBuff := [0xAA, 0xAA, 0x2D, 0xD4] ++ List.replicate 260 0
        sendCur := none
        sendEnd := none
        recvBuff := List.replicate 260 0
        recvCur := some 0
        recvEnd := some 1
        mode := Mode.Mr
        packetsTX := 0
        packetsRX := 0
        ctrErr := 0
        crcErr := 0
        crc := CRCInit
        hwMode := RFMode.RX
        irqEnabled := true
        fifoResets := 1
        txBytes := []
        rxStores := [] } := by
  rfl

theorem RxInv_RXInit_initState : RxInv (RXInit initState) := by
  rw [RXInit_initState]
  refine ⟨?_, ?_, ?_, ?_⟩
  · intro i hi
    exact absurd hi (List.not_mem_nil i)
  · intro x hx
    have := List.eq_of_mem_replicate hx
    omega
  · exact List.length_replicate 260 0
  · intro c e hc he
    simp only [Option.some_inj] at hc he
    refine ⟨by omega, by omega, fun _ => by omega⟩

end RFM12

namespace RFM12

theorem set_at_append (l1 l2 : List Nat) (b : Nat) :
    (l1 ++ l2).set l1.length b = l1 ++ l2.set 0 b := by
  rw [List.set_append_right _ _ (Nat.le_refl _), Nat.sub_self]

theorem set_at_append' (l1 l2 : List Nat) (i b : Nat) (h : i = l1.length) :
    (l1 ++ l2).set i b = l1 ++ l2.set 0 b := by
  rw [h, set_at_append]

theorem TXSetBuff_initState (len : Nat) (payload : List Nat)
    (h2 : len ≤ 255) (h3 : payload.length = len) :
    TXSetBuff initState payload =
      { initState with sendBuff :=
          [0xAA, 0xAA, 0x2D, 0xD4, 0, 0] ++ payload ++ List.replicate (258 - len) 0 } := by
  rw [TXSetBuff]
  congr 1
  have hs : initState.sendBuff = [0xAA, 0xAA, 0x2D, 0xD4] ++ List.replicate 260 0 := rfl
  rw [hs]
  have hlen : (6 : Nat) + payload.length ≤ ([0xAA, 0xAA, 0x2D, 0xD4] ++ List.replicate 260 0).length := by
    rw [List.length_append, List.length_replicate, h3]
    simp
    omega
  rw [writeList_eq payload _ 6 hlen]
  have htake : ([0xAA, 0xAA, 0x2D, 0xD4] ++ List.replicate 260 0).take 6 =
      [0xAA, 0xAA, 0x2D, 0xD4, 0, 0] := by
    rw [List.take_append_eq_append_take]
    rfl
  have hdrop : ([0xAA, 0xAA, 0x2D, 0xD4] ++ List.replicate 260 0).drop (6 + payload.length) =
      List.replicate (258 - len) 0 := by
    rw [List.drop_append_eq_append_drop]
    have e1 : ([0xAA, 0xAA, 0x2D, 0xD4] : List Nat).drop (6 + payload.length) = [] :=
      List.drop_eq_nil_of_le (by simp; omega)
    rw [e1, List.nil_append, List.drop_replicate]
    congr 1
    simp [h3]
    omega
  rw [htake, hdrop]

/-- Complete characterization of `TXInit` run on the freshly initialised
state with `payload` in the TX buffer: the frame is assembled (sync, length,
control byte with complement nibble, payload, CRC low byte then high byte),
the cursors frame the transmission with the end two bytes past the frame
end, the first byte is handed to the transmitter, and the link transmits. -/
theorem TXInit_initState_spec (len : Nat) (payload : List Nat)
    (h1 : 1 ≤ len) (h2 : len ≤ 255) (h3 : payload.length = len) :
    TXInit (TXSetBuff initState payload) len =
      { sendBuff := [0xAA, 0xAA, 0x2D, 0xD4, len, (len ^^^ 0xFF) % 16] ++ payload ++
          ((crcFold CRCInit (len :: ((len ^^^ 0xFF) % 16) :: payload)) % 256 ::
           (crcFold CRCInit (len :: ((len ^^^ 0xFF) % 16) :: payload)) / 256 ::
           List.replicate (256 - len) 0)
        sendCur := some 1
        sendEnd := some (len + 10)
        recvBuff := List.replicate 260 0
        recvCur := none
        recvEnd := none
        mode := Mode.MT
        packetsTX := 0
        packetsRX := 0
        ctrErr := 0
        crcErr := 0
        crc := crcFold CRCInit (len :: ((len ^^^ 0xFF) % 16) :: payload)
        hwMode := RFMode.TX
        irqEnabled := true
        fifoResets := 0
        txBytes := [0xAA]
        rxStores := [] } := by
  rw [TXSetBuff_initState len payload h2 h3, TXInit]
  have hmod : len % 256 = len := Nat.mod_eq_of_lt (by omega)
  simp only [hmod]
  have hhw : ({ initState with sendBuff :=
      [0xAA, 0xAA, 0x2D, 0xD4, 0, 0] ++ payload ++ List.replicate (258 - len) 0 } :
      CommState).hwMode ≠ RFMode.TX := by
    intro hx
    cases hx
  rw [if_pos hhw]
  have hset4 : ([0xAA, 0xAA, 0x2D, 0xD4, 0, 0] ++ payload ++
      List.replicate (258 - len) 0).set 4 len =
      [0xAA, 0xAA, 0x2D, 0xD4, len, 0] ++ payload ++ List.replicate (258 - len) 0 := rfl
  have hget5 : ([0xAA, 0xAA, 0x2D, 0xD4, len, 0] ++ payload ++
      List.replicate (258 - len) 0).getD 5 0 = 0 := rfl
  have hset5 : ([0xAA, 0xAA, 0x2D, 0xD4, len, 0] ++ payload ++
      List.replicate (258 - len) 0).set 5 (0 / 16 * 16 + (len ^^^ 0xFF) % 16) =
      [0xAA, 0xAA, 0x2D, 0xD4, len, (len ^^^ 0xFF) % 16] ++ payload ++
        List.replicate (258 - len) 0 := by
    have e : 0 / 16 * 16 + (len ^^^ 0xFF) % 16 = (len ^^^ 0xFF) % 16 := by omega
    rw [e]
    rfl
  simp only [RFSetMode, hset4, hget5, hset5]
  set B := [0xAA, 0xAA, 0x2D, 0xD4, len, (len ^^^ 0xFF) % 16] ++ payload ++
      List.replicate (258 - len) 0 with hB
  have hsl : List.take (len + COMM_HEADSIZE) (List.drop SynchSize B) =
      len :: ((len ^^^ 0xFF) % 16) :: payload := by
    rw [hB]
    have hd : List.drop SynchSize ([0xAA, 0xAA, 0x2D, 0xD4, len, (len ^^^ 0xFF) % 16] ++
        payload ++ List.replicate (258 - len) 0) =
        len :: ((len ^^^ 0xFF) % 16) :: (payload ++ List.replicate (258 - len) 0) := rfl
    rw [hd]
    have e1 : len + COMM_HEADSIZE = len + 1 + 1 := rfl
    rw [e1, List.take_succ_cons, List.take_succ_cons, List.take_left' h3]
  rw [hsl]
  have hL6 : ([0xAA, 0xAA, 0x2D, 0xD4, len, (len ^^^ 0xFF) % 16] : List Nat).length = 6 := rfl
  have hrep1 : (258 : Nat) - len = (257 - len) + 1 := by omega
  have hrep2 : (257 : Nat) - len = (256 - len) + 1 := by omega
  have htr1 : B.set (SynchSize + len + COMM_HEADSIZE)
      (crcFold CRCInit (len :: ((len ^^^ 0xFF) % 16) :: payload) % 256) =
      [0xAA, 0xAA, 0x2D, 0xD4, len, (len ^^^ 0xFF) % 16] ++ payload ++
        ((crcFold CRCInit (len :: ((len ^^^ 0xFF) % 16) :: payload) % 256) ::
          List.replicate (257 - len) 0) := by
    rw [hB]
    have hidx : SynchSize + len + COMM_HEADSIZE = 6 + len := by
      have : SynchSize = 4 := rfl
      have h2' : COMM_HEADSIZE = 2 := rfl
      omega
    rw [hidx, set_at_append' _ _ _ _ (by rw [List.length_append, hL6, h3])]
    congr 1
    rw [hrep1, List.replicate_succ]
    rfl
  rw [htr1]
  have htr2 : ([0xAA, 0xAA, 0x2D, 0xD4, len, (len ^^^ 0xFF) % 16] ++ payload ++
      ((crcFold CRCInit (len :: ((len ^^^ 0xFF) % 16) :: payload) % 256) ::
        List.replicate (257 - len) 0)).set (SynchSize + len + COMM_HEADSIZE + 1)
      (crcFold CRCInit (len :: ((len ^^^ 0xFF) % 16) :: payload) / 256) =
      [0xAA, 0xAA, 0x2D, 0xD4, len, (len ^^^ 0xFF) % 16] ++ payload ++
        ((crcFold CRCInit (len :: ((len ^^^ 0xFF) % 16) :: payload) % 256) ::
         (crcFold CRCInit (len :: ((len ^^^ 0xFF) % 16) :: payload) / 256) ::
          List.replicate (256 - len) 0) := by
    have hidx : SynchSize + len + COMM_HEADSIZE + 1 = 7 + len := by
      have : SynchSize = 4 := rfl
      have h2' : COMM_HEADSIZE = 2 := rfl
      omega
    rw [hidx, List.set_append_right _ _ (by rw [List.length_append, hL6, h3]; omega)]
    have e2 : 7 + len - ([0xAA, 0xAA, 0x2D, 0xD4, len, (len ^^^ 0xFF) % 16] ++ payload).length = 1 := by
      rw [List.length_append, hL6, h3]
      omega
    rw [e2]
    congr 1
    have e4 : ((crcFold CRCInit (len :: ((len ^^^ 0xFF) % 16) :: payload) % 256) ::
        List.replicate (257 - len) 0).set 1
        (crcFold CRCInit (len :: ((len ^^^ 0xFF) % 16) :: payload) / 256) =
        (crcFold CRCInit (len :: ((len ^^^ 0xFF) % 16) :: payload) % 256) ::
        (List.replicate (257 - len) 0).set 0
          (crcFold CRCInit (len :: ((len ^^^ 0xFF) % 16) :: payload) / 256) := rfl
    rw [e4]
    congr 1
    rw [hrep2, List.replicate_succ]
    rfl
  rw [htr2]
  have hend : 1 + SynchSize + len + COMM_PACKETSIZE + 1 = len + 10 := by
    have e1 : SynchSize = 4 := rfl
    have e2 : COMM_PACKETSIZE = 4 := rfl
    omega
  rw [hend]
  have hget0 : B.getD 0 0 = 0xAA := by rw [hB]; rfl
  rw [hget0]
  rfl

end RFM12

namespace RFM12

theorem crcFold_append (i : Nat) (l1 l2 : List Nat) :
    crcFold i (l1 ++ l2) = crcFold (crcFold i l1) l2 := by
  rw [crcFold, crcFold, crcFold, List.foldl_append]

theorem crcFold_snoc (i b : Nat) (l : List Nat) :
    crcFold i (l ++ [b]) = crc_ccitt_update (crcFold i l) b := by
  rw [crcFold_append]
  rfl

/-- Feeding the two header bytes (a valid length and a matching control
byte) from the freshly armed receiver: the header is accepted and the body
window is opened. -/
theorem rx_header_phase (cfg : Config) (lenb ctrl : Nat)
    (hlen1 : 1 ≤ lenb) (hlen2 : lenb ≤ 255) (hctrl_lt : ctrl < 256)
    (hmatch : ctrl % 16 = (lenb ^^^ 0xFF) % 16) :
    feed cfg (RXInit initState) [lenb, ctrl] =
      { sendBuff := [0xAA, 0xAA, 0x2D, 0xD4] ++ List.replicate 260 0
        sendCur := none
        sendEnd := none
        recvBuff := lenb :: ctrl :: List.replicate 258 0
        recvCur := some 2
        recvEnd := some (lenb + 3)
        mode := Mode.MR
        packetsTX := 0
        packetsRX := 0
        ctrErr := 0
        crcErr := 0
        crc := crcFold CRCInit [lenb, ctrl]
        hwMode := RFMode.RX
        irqEnabled := true
        fifoResets := 1
        txBytes := []
        rxStores := [0, 1] } := by
  have hmod1 : lenb % 256 = lenb := Nat.mod_eq_of_lt (by omega)
  have hmod2 : ctrl % 256 = ctrl := Nat.mod_eq_of_lt hctrl_lt
  have h1 : feed cfg (RXInit initState) [lenb] =
      { sendBuff := [0xAA, 0xAA, 0x2D, 0xD4] ++ List.replicate 260 0
        sendCur := none
        sendEnd := none
        recvBuff := lenb :: List.replicate 259 0
        recvCur := some 1
        recvEnd := some 1
        mode := Mode.Mr
        packetsTX := 0
        packetsRX := 0
        ctrErr := 0
        crcErr := 0
        crc := crc_ccitt_update CRCInit lenb
        hwMode := RFMode.RX
        irqEnabled := true
        fifoResets := 1
        txBytes := []
        rxStores := [0] } := by
    rw [RXInit_initState, feed_cons,
      ISR_rx_store cfg _ lenb 0 1 (by intro hx; cases hx) rfl rfl (by omega), feed_nil]
    rw [hmod1]
    rfl
  rw [show [lenb, ctrl] = [lenb] ++ [ctrl] from rfl, feed_append, h1, feed_cons, feed_nil]
  rw [ISR_rx_header_accept cfg _ ctrl 1 rfl rfl rfl
    (by show (ctrl % 256) % 16 = (lenb ^^^ 0xFF) % 16
        rw [hmod2, hmatch])
    (by show ¬ lenb = 0
        omega)]
  rw [hmod2]
  have hg : ((lenb :: List.replicate 259 0).set 1 ctrl).getD 0 0 = lenb := rfl
  rw [hg]
  have he2 : 1 + lenb + COMM_TAILSIZE = lenb + 3 := by
    unfold COMM_TAILSIZE
    omega
  rw [he2]
  rfl

end RFM12

namespace RFM12

/-- Feeding header, payload, and the first trailer byte: the link sits in
body-reception mode with the cursor on the end position, one byte short of
the CRC decision. -/
theorem rx_feed_prefinal (cfg : Config) (len : Nat) (payload : List Nat) (blo : Nat)
    (h1 : 1 ≤ len) (h2 : len ≤ 255) (h3 : payload.length = len)
    (h4 : ∀ x ∈ payload, x < 256) (h5 : blo < 256) :
    feed cfg (RXInit initState) ((len :: ((len ^^^ 0xFF) % 16) :: payload) ++ [blo]) =
      { sendBuff := [0xAA, 0xAA, 0x2D, 0xD4] ++ List.replicate 260 0
        sendCur := none
        sendEnd := none
        recvBuff := ([len, (len ^^^ 0xFF) % 16] ++ (payload ++ [blo])) ++
          List.replicate (257 - len) 0
        recvCur := some (len + 3)
        recvEnd := some (len + 3)
        mode := Mode.MR
        packetsTX := 0
        packetsRX := 0
        ctrErr := 0
        crcErr := 0
        crc := crcFold CRCInit ((len :: ((len ^^^ 0xFF) % 16) :: payload) ++ [blo])
        hwMode := RFMode.RX
        irqEnabled := true
        fifoResets := 1
        txBytes := []
        rxStores := [0, 1] ++ (List.range (len + 1)).map (2 + ·) } := by
  have hctrl_lt : (len ^^^ 0xFF) % 16 < 256 := by
    have := Nat.mod_lt (len ^^^ 0xFF) (y := 16) (by omega)
    omega
  have hmatch : ((len ^^^ 0xFF) % 16) % 16 = (len ^^^ 0xFF) % 16 :=
    Nat.mod_mod_of_dvd _ dvd_rfl
  have hsplit : (len :: ((len ^^^ 0xFF) % 16) :: payload) ++ [blo] =
      [len, (len ^^^ 0xFF) % 16] ++ (payload ++ [blo]) := rfl
  rw [hsplit, feed_append, rx_header_phase cfg len ((len ^^^ 0xFF) % 16) h1 h2 hctrl_lt hmatch]
  have hblen : (payload ++ [blo]).length = len + 1 := by
    rw [List.length_append, h3]
    rfl
  rw [feed_body_advance cfg (payload ++ [blo]) _ 2 (len + 3) rfl rfl rfl
    (by rw [hblen]; omega)
    (by intro x hx
        rcases List.mem_append.mp hx with hx2 | hx2
        · exact h4 x hx2
        · simp at hx2; omega)]
  have hwl : writeList (len :: ((len ^^^ 0xFF) % 16) :: List.replicate 258 0) 2
      (payload ++ [blo]) =
      ([len, (len ^^^ 0xFF) % 16] ++ (payload ++ [blo])) ++ List.replicate (257 - len) 0 := by
    have hlen260 : (len :: ((len ^^^ 0xFF) % 16) :: List.replicate 258 0).length = 260 := by
      rw [List.length_cons, List.length_cons, List.length_replicate]
    rw [writeList_eq _ _ 2 (by rw [hblen, hlen260]; omega)]
    have ht : (len :: ((len ^^^ 0xFF) % 16) :: List.replicate 258 0).take 2 =
        [len, (len ^^^ 0xFF) % 16] := rfl
    have hd : (len :: ((len ^^^ 0xFF) % 16) :: List.replicate 258 0).drop
        (2 + (payload ++ [blo]).length) = List.replicate (257 - len) 0 := by
      rw [hblen]
      rw [show 2 + (len + 1) = len + 1 + 1 + 1 from by omega]
      rw [List.drop_succ_cons, List.drop_succ_cons, List.drop_replicate]
      congr 1
      omega
    rw [ht, hd]
  rw [hwl]
  have hcrc : crcFold (crcFold CRCInit [len, (len ^^^ 0xFF) % 16]) (payload ++ [blo]) =
      crcFold CRCInit ((len :: ((len ^^^ 0xFF) % 16) :: payload) ++ [blo]) := by
    rw [hsplit]
    exact (crcFold_append _ _ _).symm
  rw [hcrc, hblen]
  rw [show (2 : Nat) + (len + 1) = len + 3 from by omega]
  rfl

end RFM12

namespace RFM12

/-- Feeding a complete well-formed packet (header, payload, CRC trailer
low byte then high byte): the receiver reaches MX (frame ready) with the
packet stored in the receive buffer, the RX success counter bumped, the
hardware returned to the default mode and the interrupt disabled. -/
theorem rx_feed_good (cfg : Config) (len : Nat) (payload : List Nat)
    (h1 : 1 ≤ len) (h2 : len ≤ 255) (h3 : payload.length = len)
    (h4 : ∀ x ∈ payload, x < 256) :
    feed cfg (RXInit initState) ((len :: ((len ^^^ 0xFF) % 16) :: payload) ++
        [crcFold CRCInit (len :: ((len ^^^ 0xFF) % 16) :: payload) % 256,
         crcFold CRCInit (len :: ((len ^^^ 0xFF) % 16) :: payload) / 256]) =
      { sendBuff := [0xAA, 0xAA, 0x2D, 0xD4] ++ List.replicate 260 0
        sendCur := none
        sendEnd := none
        recvBuff := ([len, (len ^^^ 0xFF) % 16] ++
            (payload ++ [crcFold CRCInit (len :: ((len ^^^ 0xFF) % 16) :: payload) % 256])) ++
          (crcFold CRCInit (len :: ((len ^^^ 0xFF) % 16) :: payload) / 256 ::
            List.replicate (256 - len) 0)
        recvCur := some (len + 3)
        recvEnd := some (len + 3)
        mode := Mode.MX
        packetsTX := 0
        packetsRX := 1
        ctrErr := 0
        crcErr := 0
        crc := 0
        hwMode := RFMode.DEF
        irqEnabled := false
        fifoResets := 1
        txBytes := []
        rxStores := ([0, 1] ++ (List.range (len + 1)).map (2 + ·)) ++ [len + 3] } := by
  have hC : crcFold CRCInit (len :: ((len ^^^ 0xFF) % 16) :: payload) < 65536 :=
    crcFold_lt _ CRCInit (by norm_num [CRCInit])
  have hlo : crcFold CRCInit (len :: ((len ^^^ 0xFF) % 16) :: payload) % 256 < 256 :=
    Nat.mod_lt _ (by norm_num)
  have hhi : crcFold CRCInit (len :: ((len ^^^ 0xFF) % 16) :: payload) / 256 < 256 :=
    Nat.div_lt_of_lt_mul (by omega)
  have hsplit2 : (len :: ((len ^^^ 0xFF) % 16) :: payload) ++
      [crcFold CRCInit (len :: ((len ^^^ 0xFF) % 16) :: payload) % 256,
       crcFold CRCInit (len :: ((len ^^^ 0xFF) % 16) :: payload) / 256] =
      ((len :: ((len ^^^ 0xFF) % 16) :: payload) ++
        [crcFold CRCInit (len :: ((len ^^^ 0xFF) % 16) :: payload) % 256]) ++
      [crcFold CRCInit (len :: ((len ^^^ 0xFF) % 16) :: payload) / 256] := by
    rw [List.append_assoc]
    rfl
  rw [hsplit2, feed_append,
    rx_feed_prefinal cfg len payload _ h1 h2 h3 h4 hlo, feed_cons, feed_nil]
  have hcrcz : crc_ccitt_update
      (crcFold CRCInit ((len :: ((len ^^^ 0xFF) % 16) :: payload) ++
        [crcFold CRCInit (len :: ((len ^^^ 0xFF) % 16) :: payload) % 256]))
      ((crcFold CRCInit (len :: ((len ^^^ 0xFF) % 16) :: payload) / 256) % 256) = 0 := by
    rw [crcFold_snoc, Nat.mod_eq_of_lt hhi]
    exact crc_residue_zero _ hC
  have hfin := ISR_rx_body_accept cfg
    { sendBuff := [0xAA, 0xAA, 0x2D, 0xD4] ++ List.replicate 260 0
      sendCur := none
      sendEnd := none
      recvBuff := ([len, (len ^^^ 0xFF) % 16] ++
          (payload ++ [crcFold CRCInit (len :: ((len ^^^ 0xFF) % 16) :: payload) % 256])) ++
        List.replicate (257 - len) 0
      recvCur := some (len + 3)
      recvEnd := some (len + 3)
      mode := Mode.MR
      packetsTX := 0
      packetsRX := 0
      ctrErr := 0
      crcErr := 0
      crc := crcFold CRCInit ((len :: ((len ^^^ 0xFF) % 16) :: payload) ++
        [crcFold CRCInit (len :: ((len ^^^ 0xFF) % 16) :: payload) % 256])
      hwMode := RFMode.RX
      irqEnabled := true
      fifoResets := 1
      txBytes := []
      rxStores := [0, 1] ++ (List.range (len + 1)).map (2 + ·) }
    (crcFold CRCInit (len :: ((len ^^^ 0xFF) % 16) :: payload) / 256) (len + 3)
    (by intro hx; simp at hx) (by intro hx; simp at hx) rfl rfl hcrcz
  rw [hfin]
  have hset : (([len, (len ^^^ 0xFF) % 16] ++
      (payload ++ [crcFold CRCInit (len :: ((len ^^^ 0xFF) % 16) :: payload) % 256])) ++
      List.replicate (257 - len) 0).set (len + 3)
      ((crcFold CRCInit (len :: ((len ^^^ 0xFF) % 16) :: payload) / 256) % 256) =
      ([len, (len ^^^ 0xFF) % 16] ++
        (payload ++ [crcFold CRCInit (len :: ((len ^^^ 0xFF) % 16) :: payload) % 256])) ++
      (crcFold CRCInit (len :: ((len ^^^ 0xFF) % 16) :: payload) / 256 ::
        List.replicate (256 - len) 0) := by
    rw [set_at_append' _ _ _ _ (by simp [h3])]
    rw [Nat.mod_eq_of_lt hhi]
    congr 1
    rw [show (257 : Nat) - len = (256 - len) + 1 from by omega, List.replicate_succ]
    rfl
  rw [hset]

end RFM12

namespace RFM12

/-- Feeding a well-formed packet whose CRC trailer low byte has been
bit-flipped (complemented), with RX retry enabled: the CRC residue is
non-zero, so the frame is rejected — the CRC error counter is bumped by
exactly one, a FIFO reset goes out, and the link is re-armed for another
header exactly as `RXInit` arms it, without touching the hardware mode. -/
theorem rx_feed_flip (cfg : Config) (len : Nat) (payload : List Nat)
    (h1 : 1 ≤ len) (h2 : len ≤ 255) (h3 : payload.length = len)
    (h4 : ∀ x ∈ payload, x < 256) (hr : cfg.rxretry = true) :
    feed cfg (RXInit initState) ((len :: ((len ^^^ 0xFF) % 16) :: payload) ++
        [(crcFold CRCInit (len :: ((len ^^^ 0xFF) % 16) :: payload) % 256) ^^^ 0xFF,
         crcFold CRCInit (len :: ((len ^^^ 0xFF) % 16) :: payload) / 256]) =
      { sendBuff := [0xAA, 0xAA, 0x2D, 0xD4] ++ List.replicate 260 0
        sendCur := none
        sendEnd := none
        recvBuff := ([len, (len ^^^ 0xFF) % 16] ++
            (payload ++ [(crcFold CRCInit (len :: ((len ^^^ 0xFF) % 16) :: payload) % 256) ^^^ 0xFF])) ++
          (crcFold CRCInit (len :: ((len ^^^ 0xFF) % 16) :: payload) / 256 ::
            List.replicate (256 - len) 0)
        recvCur := some 0
        recvEnd := some 1
        mode := Mode.Mr
        packetsTX := 0
        packetsRX := 0
        ctrErr := 0
        crcErr := 1
        crc := CRCInit
        hwMode := RFMode.RX
        irqEnabled := true
        fifoResets := 2
        txBytes := []
        rxStores := ([0, 1] ++ (List.range (len + 1)).map (2 + ·)) ++ [len + 3] } := by
  have hC : crcFold CRCInit (len :: ((len ^^^ 0xFF) % 16) :: payload) < 65536 :=
    crcFold_lt _ CRCInit (by norm_num [CRCInit])
  have hlo : (crcFold CRCInit (len :: ((len ^^^ 0xFF) % 16) :: payload) % 256) ^^^ 0xFF < 256 :=
    Nat.xor_lt_two_pow (n := 8) (Nat.mod_lt _ (by norm_num)) (by norm_num)
  have hhi : crcFold CRCInit (len :: ((len ^^^ 0xFF) % 16) :: payload) / 256 < 256 :=
    Nat.div_lt_of_lt_mul (by omega)
  have hsplit2 : (len :: ((len ^^^ 0xFF) % 16) :: payload) ++
      [(crcFold CRCInit (len :: ((len ^^^ 0xFF) % 16) :: payload) % 256) ^^^ 0xFF,
       crcFold CRCInit (len :: ((len ^^^ 0xFF) % 16) :: payload) / 256] =
      ((len :: ((len ^^^ 0xFF) % 16) :: payload) ++
        [(crcFold CRCInit (len :: ((len ^^^ 0xFF) % 16) :: payload) % 256) ^^^ 0xFF]) ++
      [crcFold CRCInit (len :: ((len ^^^ 0xFF) % 16) :: payload) / 256] := by
    rw [List.append_assoc]
    rfl
  rw [hsplit2, feed_append,
    rx_feed_prefinal cfg len payload _ h1 h2 h3 h4 hlo, feed_cons, feed_nil]
  have hcrcnz : crc_ccitt_update
      (crcFold CRCInit ((len :: ((len ^^^ 0xFF) % 16) :: payload) ++
        [(crcFold CRCInit (len :: ((len ^^^ 0xFF) % 16) :: payload) % 256) ^^^ 0xFF]))
      ((crcFold CRCInit (len :: ((len ^^^ 0xFF) % 16) :: payload) / 256) % 256) ≠ 0 := by
    rw [crcFold_snoc, Nat.mod_eq_of_lt hhi]
    exact crc_flip_nonzero _ hC
  have hfin := ISR_rx_body_reject cfg
    { sendBuff := [0xAA, 0xAA, 0x2D, 0xD4] ++ List.replicate 260 0
      sendCur := none
      sendEnd := none
      recvBuff := ([len, (len ^^^ 0xFF) % 16] ++
          (payload ++ [(crcFold CRCInit (len :: ((len ^^^ 0xFF) % 16) :: payload) % 256) ^^^ 0xFF])) ++
        List.replicate (257 - len) 0
      recvCur := some (len + 3)
      recvEnd := some (len + 3)
      mode := Mode.MR
      packetsTX := 0
      packetsRX := 0
      ctrErr := 0
      crcErr := 0
      crc := crcFold CRCInit ((len :: ((len ^^^ 0xFF) % 16) :: payload) ++
        [(crcFold CRCInit (len :: ((len ^^^ 0xFF) % 16) :: payload) % 256) ^^^ 0xFF])
      hwMode := RFMode.RX
      irqEnabled := true
      fifoResets := 1
      txBytes := []
      rxStores := [0, 1] ++ (List.range (len + 1)).map (2 + ·) }
    (crcFold CRCInit (len :: ((len ^^^ 0xFF) % 16) :: payload) / 256) (len + 3)
    (by intro hx; simp at hx) (by intro hx; simp at hx) rfl rfl hcrcnz
  rw [hfin, ResetRX]
  rw [if_pos hr]
  have hset : ((([len, (len ^^^ 0xFF) % 16] ++
      (payload ++ [(crcFold CRCInit (len :: ((len ^^^ 0xFF) % 16) :: payload) % 256) ^^^ 0xFF])) ++
      List.replicate (257 - len) 0).set (len + 3)
      ((crcFold CRCInit (len :: ((len ^^^ 0xFF) % 16) :: payload) / 256) % 256)) =
      ([len, (len ^^^ 0xFF) % 16] ++
        (payload ++ [(crcFold CRCInit (len :: ((len ^^^ 0xFF) % 16) :: payload) % 256) ^^^ 0xFF])) ++
      (crcFold CRCInit (len :: ((len ^^^ 0xFF) % 16) :: payload) / 256 ::
        List.replicate (256 - len) 0) := by
    rw [set_at_append' _ _ _ _ (by simp [h3])]
    rw [Nat.mod_eq_of_lt hhi]
    congr 1
    rw [show (257 : Nat) - len = (256 - len) + 1 from by omega, List.replicate_succ]
    rfl
  rw [hset]
  rfl

end RFM12

namespace RFM12

/-- The packet part of the frame `TXInit` builds: length byte, control
byte (complement nibble), payload, CRC low byte, CRC high byte. -/
theorem builtPacket_spec (len : Nat) (payload : List Nat)
    (h1 : 1 ≤ len) (h2 : len ≤ 255) (h3 : payload.length = len) :
    builtPacket (TXInit (TXSetBuff initState payload) len) len =
      (len :: ((len ^^^ 0xFF) % 16) :: payload) ++
        [crcFold CRCInit (len :: ((len ^^^ 0xFF) % 16) :: payload) % 256,
         crcFold CRCInit (len :: ((len ^^^ 0xFF) % 16) :: payload) / 256] := by
  rw [builtPacket, TXInit_initState_spec len payload h1 h2 h3]
  have hd : (([0xAA, 0xAA, 0x2D, 0xD4, len, (len ^^^ 0xFF) % 16] ++ payload ++
      ((crcFold CRCInit (len :: ((len ^^^ 0xFF) % 16) :: payload)) % 256 ::
       (crcFold CRCInit (len :: ((len ^^^ 0xFF) % 16) :: payload)) / 256 ::
        List.replicate (256 - len) 0))).drop SynchSize =
      len :: ((len ^^^ 0xFF) % 16) :: (payload ++
        ((crcFold CRCInit (len :: ((len ^^^ 0xFF) % 16) :: payload)) % 256 ::
         (crcFold CRCInit (len :: ((len ^^^ 0xFF) % 16) :: payload)) / 256 ::
          List.replicate (256 - len) 0)) := rfl
  rw [hd]
  have he : len + COMM_PACKETSIZE = ((len + 2) + 1) + 1 := rfl
  rw [he, List.take_succ_cons, List.take_succ_cons, List.take_append_eq_append_take]
  rw [List.take_of_length_le (by omega)]
  rw [h3]
  rw [show len + 2 - len = 2 from by omega]
  rfl

/-- Round trip: the packet built by `TXInit` from any payload of length
1..255, fed through the RX interrupt path, is accepted, and `RXGetPacket`
returns the same length and payload. -/
theorem roundtrip_spec (cfg : Config) (len : Nat) (payload : List Nat)
    (h1 : 1 ≤ len) (h2 : len ≤ 255) (h3 : payload.length = len)
    (h4 : ∀ b ∈ payload, b < 256) :
    (feed cfg (RXInit initState)
        (builtPacket (TXInit (TXSetBuff initState payload) len) len)).mode = Mode.MX ∧
    RXGetPacket (feed cfg (RXInit initState)
        (builtPacket (TXInit (TXSetBuff initState payload) len) len)) =
      (feed cfg (RXInit initState)
        (builtPacket (TXInit (TXSetBuff initState payload) len) len),
       len,
       some ((payload ++ [crcFold CRCInit (len :: ((len ^^^ 0xFF) % 16) :: payload) % 256]) ++
         (crcFold CRCInit (len :: ((len ^^^ 0xFF) % 16) :: payload) / 256 ::
           List.replicate (256 - len) 0))) ∧
    ((payload ++ [crcFold CRCInit (len :: ((len ^^^ 0xFF) % 16) :: payload) % 256]) ++
         (crcFold CRCInit (len :: ((len ^^^ 0xFF) % 16) :: payload) / 256 ::
           List.replicate (256 - len) 0)).take len = payload := by
  rw [builtPacket_spec len payload h1 h2 h3, rx_feed_good cfg len payload h1 h2 h3 h4]
  have htake : ((payload ++ [crcFold CRCInit (len :: ((len ^^^ 0xFF) % 16) :: payload) % 256]) ++
      (crcFold CRCInit (len :: ((len ^^^ 0xFF) % 16) :: payload) / 256 ::
        List.replicate (256 - len) 0)).take len = payload := by
    rw [List.take_append_eq_append_take, List.take_append_eq_append_take]
    rw [List.take_of_length_le (by omega)]
    rw [h3, Nat.sub_self, List.take_zero, List.append_nil]
    rw [show len - (payload ++ [crcFold CRCInit (len :: ((len ^^^ 0xFF) % 16) :: payload) % 256]).length = 0
      from by simp [h3]]
    rw [List.take_zero, List.append_nil]
  refine ⟨rfl, ?_, htake⟩
  rw [RXGetPacket]
  rw [if_neg (by intro hx; simp at hx)]
  rfl

end RFM12

namespace RFM12

theorem ResetRX_mode (cfg : Config) (s : CommState) :
    (ResetRX cfg s).mode = if cfg.rxretry then Mode.Mr else Mode.MI := by
  rw [ResetRX]
  by_cases hr : cfg.rxretry = true
  · rw [if_pos hr, if_pos hr]
  · have hr2 : cfg.rxretry = false := by simpa using hr
    rw [if_neg (by simp [hr2]), if_neg (by simp [hr2])]
    rfl

theorem ResetRX_ctrErr (cfg : Config) (s : CommState) :
    (ResetRX cfg s).ctrErr = s.ctrErr := by
  rw [ResetRX]
  by_cases hr : cfg.rxretry = true
  · rw [if_pos hr]
  · rw [if_neg (by simpa using hr)]
    rfl

theorem TXConfig_getD5 (s : CommState) (cfg0 : Nat) (h6 : 6 ≤ s.sendBuff.length) :
    (TXConfig s cfg0).sendBuff.getD 5 0 =
      (cfg0 % 16) * 16 + (s.sendBuff.getD 5 0) % 16 := by
  rw [TXConfig]
  rw [List.getD_eq_getElem?_getD, List.getElem?_set_eq_of_lt _ (by omega)]
  rfl

theorem RFSetMode_sendBuff (s : CommState) (m : RFMode) :
    (RFSetMode s m).sendBuff = s.sendBuff := by
  cases m <;> rfl

theorem TXInit_sendBuff_chain (s : CommState) (len : Nat) :
    (TXInit s len).sendBuff =
      (((s.sendBuff.set 4 (len % 256)).set 5
          ((((s.sendBuff.set 4 (len % 256)).getD 5 0) / 16) * 16 +
            (((len % 256) ^^^ 0xFF) % 16))).set
        (SynchSize + len % 256 + COMM_HEADSIZE)
        (crcFold CRCInit
          ((((s.sendBuff.set 4 (len % 256)).set 5
              ((((s.sendBuff.set 4 (len % 256)).getD 5 0) / 16) * 16 +
                (((len % 256) ^^^ 0xFF) % 16))).drop SynchSize).take
            (len % 256 + COMM_HEADSIZE)) % 256)).set
        (SynchSize + len % 256 + COMM_HEADSIZE + 1)
        (crcFold CRCInit
          ((((s.sendBuff.set 4 (len % 256)).set 5
              ((((s.sendBuff.set 4 (len % 256)).getD 5 0) / 16) * 16 +
                (((len % 256) ^^^ 0xFF) % 16))).drop SynchSize).take
            (len % 256 + COMM_HEADSIZE)) / 256) := by
  rw [TXInit]
  simp only [apply_ite CommState.sendBuff, RFSetMode_sendBuff, ite_self]

theorem TXInit_ctrlByte (s : CommState) (len : Nat) (h6 : 6 ≤ s.sendBuff.length) :
    (TXInit s len).sendBuff.getD 5 0 =
      ((s.sendBuff.getD 5 0) / 16) * 16 + (((len % 256) ^^^ 0xFF) % 16) := by
  rw [TXInit_sendBuff_chain]
  rw [List.getD_eq_getElem?_getD]
  rw [List.getElem?_set_ne (by simp only [SynchSize, COMM_HEADSIZE]; omega :
    (SynchSize + len % 256 + COMM_HEADSIZE + 1 : Nat) ≠ 5)]
  rw [List.getElem?_set_ne (by simp only [SynchSize, COMM_HEADSIZE]; omega :
    (SynchSize + len % 256 + COMM_HEADSIZE : Nat) ≠ 5)]
  rw [List.getElem?_set_eq_of_lt _ (by
    rw [List.length_set]
    omega)]
  rw [List.getD_eq_getElem?_getD]
  rw [List.getElem?_set_ne (by omega : (4 : Nat) ≠ 5)]
  rw [Option.getD_some, List.getD_eq_getElem?_getD]

theorem sliceD_take (buf : List Nat) (c n m : Nat) :
    (sliceD buf c n).take m = sliceD buf c (min m n) := by
  rw [sliceD, sliceD, ← List.map_take, List.take_range]

end RFM12

namespace RFM12

/-- C7: `RXGetPacket` is non-blocking and returns the buffer contents and
the received length iff the link state is MX (FrameReady); in every other
state it reports length 0 and a NULL buffer without error; the call never
modifies the state (link state, cursors, buffers, counters), so the result
is not consumed and a new `RXInit` is required to re-arm. -/
theorem C7_rxGetPacket_readonly (s : CommState) :
    (RXGetPacket s).1 = s ∧
    (s.mode = Mode.MX →
      (RXGetPacket s).2 = (s.recvBuff.getD 0 0, some (s.recvBuff.drop 2))) ∧
    (s.mode ≠ Mode.MX → (RXGetPacket s).2 = (0, none)) := by
  refine ⟨?_, ?_, ?_⟩
  · rw [RXGetPacket]
    split_ifs <;> rfl
  · intro h
    rw [RXGetPacket, if_neg (by simp [h])]
  · intro h
    rw [RXGetPacket, if_pos h]

/-- Witness for C7 at two concrete states: the idle just-initialised state
(nothing available, state untouched) and a frame-ready state (buffer and
length returned, state untouched). -/
theorem C7_rxGetPacket_readonly_witness :
    ((RXGetPacket initState).1 = initState ∧
     (RXGetPacket initState).2 = (0, none)) ∧
    ((RXGetPacket { initState with mode := Mode.MX }).1 =
      { initState with mode := Mode.MX } ∧
     (RXGetPacket { initState with mode := Mode.MX }).2 =
      (({ initState with mode := Mode.MX } : CommState).recvBuff.getD 0 0,
       some (({ initState with mode := Mode.MX } : CommState).recvBuff.drop 2))) :=
  ⟨⟨(C7_rxGetPacket_readonly initState).1,
    (C7_rxGetPacket_readonly initState).2.2 (by decide)⟩,
   ⟨(C7_rxGetPacket_readonly { initState with mode := Mode.MX }).1,
    (C7_rxGetPacket_readonly { initState with mode := Mode.MX }).2.1 rfl⟩⟩

/-- C9: on the interrupt invocation where the send cursor has reached the
end cursor, the link state becomes Mt (TransmitDone), the TX success
counter is incremented, the interrupt source is disabled, and the hardware
mode field is left unchanged (in particular it stays in transmit mode), so
the transmitter keeps its carrier after completion. -/
theorem C9_tx_completion (cfg : Config) (s : CommState) (b : Nat)
    (hm : s.mode = Mode.MT) (heq : s.sendCur = s.sendEnd) :
    (ISR cfg s false b).mode = Mode.Mt ∧
    (ISR cfg s false b).packetsTX = s.packetsTX + 1 ∧
    (ISR cfg s false b).irqEnabled = false ∧
    (ISR cfg s false b).hwMode = s.hwMode ∧
    (s.hwMode = RFMode.TX → (ISR cfg s false b).hwMode = RFMode.TX) := by
  rw [ISR_tx_done cfg s b hm heq]
  exact ⟨rfl, rfl, rfl, rfl, fun h => h⟩

/-- Witness for C9: the state after `TXInit` of a 1-byte payload and ten
transmit interrupts has the cursor at the end; the next interrupt
completes the transmission. -/
theorem C9_tx_completion_witness :
    (ISR defaultCfg (txRun defaultCfg (TXInit (TXSetBuff initState [42]) 1) 10) false 0).mode =
      Mode.Mt ∧
    (ISR defaultCfg (txRun defaultCfg (TXInit (TXSetBuff initState [42]) 1) 10) false 0).packetsTX =
      (txRun defaultCfg (TXInit (TXSetBuff initState [42]) 1) 10).packetsTX + 1 ∧
    (ISR defaultCfg (txRun defaultCfg (TXInit (TXSetBuff initState [42]) 1) 10) false 0).irqEnabled =
      false ∧
    (ISR defaultCfg (txRun defaultCfg (TXInit (TXSetBuff initState [42]) 1) 10) false 0).hwMode =
      (txRun defaultCfg (TXInit (TXSetBuff initState [42]) 1) 10).hwMode ∧
    ((txRun defaultCfg (TXInit (TXSetBuff initState [42]) 1) 10).hwMode = RFMode.TX →
      (ISR defaultCfg (txRun defaultCfg (TXInit (TXSetBuff initState [42]) 1) 10) false 0).hwMode =
        RFMode.TX) :=
  C9_tx_completion defaultCfg (txRun defaultCfg (TXInit (TXSetBuff initState [42]) 1) 10) 0
    (by decide) (by decide)

/-- C10: every store through the receive cursor performed by the RX
interrupt path stays inside the bounds of the receive buffer, for every
event sequence (hence for every possible value of the received length
byte): every recorded store offset is at most 258, strictly within the
260-byte statically allocated packet buffer, and the end cursor never
exceeds offset 258. -/
theorem C10_rx_store_bounds (cfg : Config) (evs : List (Bool × Nat)) (i : Nat)
    (hi : i ∈ (run cfg (RXInit initState) evs).rxStores) :
    i ≤ 258 ∧ i < (run cfg (RXInit initState) evs).recvBuff.length ∧
    (run cfg (RXInit initState) evs).recvBuff.length = 260 ∧
    (∀ c e, (run cfg (RXInit initState) evs).recvCur = some c →
      (run cfg (RXInit initState) evs).recvEnd = some e → e ≤ 258) := by
  obtain ⟨a, b2, c2, d⟩ := run_preserves_RxInv cfg evs _ RxInv_RXInit_initState
  refine ⟨a i hi, ?_, c2, fun c e hc he => (d c e hc he).2.1⟩
  rw [c2]
  have := a i hi
  omega

/-- Witness for C10: a single received byte is stored at offset 0, inside
the 260-byte buffer. -/
theorem C10_rx_store_bounds_witness :
    0 ≤ 258 ∧
    0 < (run defaultCfg (RXInit initState) [(false, 7)]).recvBuff.length ∧
    (run defaultCfg (RXInit initState) [(false, 7)]).recvBuff.length = 260 ∧
    (∀ c e, (run defaultCfg (RXInit initState) [(false, 7)]).recvCur = some c →
      (run defaultCfg (RXInit initState) [(false, 7)]).recvEnd = some e → e ≤ 258) :=
  C10_rx_store_bounds defaultCfg [(false, 7)] 0 (by decide)

end RFM12

namespace RFM12

/-- C5: on a transmit-buffer-underrun (RGUR) while transmitting: with TX
retry compiled in, the send cursor is rewound to the frame start (index 1,
with the first frame byte re-issued to the transmitter), the state stays
MT, and running the transmission to completion increments the TX success
counter exactly once; with TX retry disabled, the link transitions to MI,
the cursors are cleared to NULL, and the TX success counter is unchanged. -/
theorem C5_underrun (cfg : Config) (s : CommState) (b c e : Nat)
    (hm : s.mode = Mode.MT) (hc : s.sendCur = some c) (he : s.sendEnd = some e)
    (h1 : 1 ≤ e) :
    (cfg.txretry = true →
      (ISR cfg s true b).mode = Mode.MT ∧
      (ISR cfg s true b).sendCur = some 1 ∧
      (ISR cfg s true b).txBytes = s.txBytes ++ [s.sendBuff.getD 0 0] ∧
      (ISR cfg s true b).packetsTX = s.packetsTX ∧
      (txRun cfg (ISR cfg s true b) e).mode = Mode.Mt ∧
      (txRun cfg (ISR cfg s true b) e).packetsTX = s.packetsTX + 1) ∧
    (cfg.txretry = false →
      (ISR cfg s true b).mode = Mode.MI ∧
      (ISR cfg s true b).sendCur = none ∧
      (ISR cfg s true b).sendEnd = none ∧
      (ISR cfg s true b).packetsTX = s.packetsTX) := by
  constructor
  · intro hr
    rw [ISR_tx_rgur_retry cfg s b hm hr]
    have hstep := txRun_completes cfg (e - 1)
      { s with ctrErr := s.ctrErr + 1, sendCur := some 1,
               txBytes := s.txBytes ++ [s.sendBuff.getD 0 0] }
      1 e hm rfl he (by omega)
    refine ⟨hm, rfl, rfl, rfl, ?_, ?_⟩
    · rw [show e = (e - 1) + 1 from by omega, hstep]
    · rw [show e = (e - 1) + 1 from by omega, hstep]
  · intro hr
    rw [ISR_tx_rgur_abort cfg s b hm hr]
    exact ⟨rfl, rfl, rfl, rfl⟩

/-- Witness for C5 at a concrete transmitting state (1-byte payload, end
cursor 11), exercising both the retry-enabled and retry-disabled
configurations. -/
theorem C5_underrun_witness :
    ((⟨true, true⟩ : Config).txretry = true →
      (ISR ⟨true, true⟩ (TXInit (TXSetBuff initState [42]) 1) true 0).mode = Mode.MT ∧
      (ISR ⟨true, true⟩ (TXInit (TXSetBuff initState [42]) 1) true 0).sendCur = some 1 ∧
      (ISR ⟨true, true⟩ (TXInit (TXSetBuff initState [42]) 1) true 0).txBytes =
        (TXInit (TXSetBuff initState [42]) 1).txBytes ++
          [(TXInit (TXSetBuff initState [42]) 1).sendBuff.getD 0 0] ∧
      (ISR ⟨true, true⟩ (TXInit (TXSetBuff initState [42]) 1) true 0).packetsTX =
        (TXInit (TXSetBuff initState [42]) 1).packetsTX ∧
      (txRun ⟨true, true⟩ (ISR ⟨true, true⟩ (TXInit (TXSetBuff initState [42]) 1) true 0) 11).mode =
        Mode.Mt ∧
      (txRun ⟨true, true⟩ (ISR ⟨true, true⟩ (TXInit (TXSetBuff initState [42]) 1) true 0) 11).packetsTX =
        (TXInit (TXSetBuff initState [42]) 1).packetsTX + 1) ∧
    ((⟨false, true⟩ : Config).txretry = false →
      (ISR ⟨false, true⟩ (TXInit (TXSetBuff initState [42]) 1) true 0).mode = Mode.MI ∧
      (ISR ⟨false, true⟩ (TXInit (TXSetBuff initState [42]) 1) true 0).sendCur = none ∧
      (ISR ⟨false, true⟩ (TXInit (TXSetBuff initState [42]) 1) true 0).sendEnd = none ∧
      (ISR ⟨false, true⟩ (TXInit (TXSetBuff initState [42]) 1) true 0).packetsTX =
        (TXInit (TXSetBuff initState [42]) 1).packetsTX) :=
  ⟨(C5_underrun ⟨true, true⟩ (TXInit (TXSetBuff initState [42]) 1) 0 1 11
      (by decide) (by decide) (by decide) (by decide)).1,
   (C5_underrun ⟨false, true⟩ (TXInit (TXSetBuff initState [42]) 1) 0 1 11
      (by decide) (by decide) (by decide) (by decide)).2⟩

/-- C8 counterexample: for a 1-byte payload the frame is 9 bytes
(4 sync, length, control, payload, 2 CRC), but the transmission clocks out
11 bytes — the whole frame followed by two dummy bytes, not one — and the
send cursor starts at index 1 (the second synchronization byte, the first
having been transmitted directly by `TXInit`), not at the first data byte
after the synchronization pattern (index 4). -/
theorem C8_counterexample :
    (TXInit (TXSetBuff initState [42]) 1).sendCur = some 1 ∧
    ¬ (TXInit (TXSetBuff initState [42]) 1).sendCur = some SynchSize ∧
    (txRun defaultCfg (TXInit (TXSetBuff initState [42]) 1) 11).mode = Mode.Mt ∧
    (txRun defaultCfg (TXInit (TXSetBuff initState [42]) 1) 11).txBytes.length = 11 ∧
    ¬ (txRun defaultCfg (TXInit (TXSetBuff initState [42]) 1) 11).txBytes.length =
        (1 + 8) + 1 := by
  decide

/-- C8 (amended): `TXInit` transmits the first synchronization byte itself
and points the send cursor at index 1, with the end cursor at frame start
plus `Length + 10` — two bytes past the end of the `Length + 8`-byte frame
— so a completed transmission clocks out the whole frame (4 sync bytes,
length, control, payload, 2 CRC bytes) followed by exactly two dummy
bytes. -/
theorem C8_tx_cursors_amended (cfg : Config) (len : Nat) (payload : List Nat)
    (h1 : 1 ≤ len) (h2 : len ≤ 255) (h3 : payload.length = len) :
    (TXInit (TXSetBuff initState payload) len).sendCur = some 1 ∧
    (TXInit (TXSetBuff initState payload) len).sendEnd = some (len + 10) ∧
    (TXInit (TXSetBuff initState payload) len).txBytes = [0xAA] ∧
    (txRun cfg (TXInit (TXSetBuff initState payload) len) (len + 10)).mode = Mode.Mt ∧
    (txRun cfg (TXInit (TXSetBuff initState payload) len) (len + 10)).txBytes.length =
      len + 10 ∧
    (txRun cfg (TXInit (TXSetBuff initState payload) len) (len + 10)).txBytes.take (len + 8) =
      [0xAA, 0xAA, 0x2D, 0xD4, len, (len ^^^ 0xFF) % 16] ++ payload ++
        [crcFold CRCInit (len :: ((len ^^^ 0xFF) % 16) :: payload) % 256,
         crcFold CRCInit (len :: ((len ^^^ 0xFF) % 16) :: payload) / 256] := by
  rw [TXInit_initState_spec len payload h1 h2 h3]
  have hbuflen : ([0xAA, 0xAA, 0x2D, 0xD4, len, (len ^^^ 0xFF) % 16] ++ payload ++
      (crcFold CRCInit (len :: ((len ^^^ 0xFF) % 16) :: payload) % 256 ::
       crcFold CRCInit (len :: ((len ^^^ 0xFF) % 16) :: payload) / 256 ::
        List.replicate (256 - len) 0)).length = 264 := by
    simp [h3]
    omega
  refine ⟨rfl, rfl, rfl, ?_, ?_, ?_⟩
  · rw [show len + 10 = (len + 9) + 1 from by omega,
      txRun_completes cfg (len + 9) _ 1 ((len + 9) + 1) rfl rfl rfl (by omega)]
  · rw [show len + 10 = (len + 9) + 1 from by omega,
      txRun_completes cfg (len + 9) _ 1 ((len + 9) + 1) rfl rfl rfl (by omega)]
    rw [List.length_append, sliceD_length]
    show 1 + (len + 9) = (len + 9) + 1
    omega
  · rw [show len + 10 = (len + 9) + 1 from by omega,
      txRun_completes cfg (len + 9) _ 1 ((len + 9) + 1) rfl rfl rfl (by omega)]
    have hslice : (([0xAA] : List Nat) ++
        sliceD ([0xAA, 0xAA, 0x2D, 0xD4, len, (len ^^^ 0xFF) % 16] ++ payload ++
          (crcFold CRCInit (len :: ((len ^^^ 0xFF) % 16) :: payload) % 256 ::
           crcFold CRCInit (len :: ((len ^^^ 0xFF) % 16) :: payload) / 256 ::
            List.replicate (256 - len) 0)) 1 (len + 9)).take (len + 8) =
        sliceD ([0xAA, 0xAA, 0x2D, 0xD4, len, (len ^^^ 0xFF) % 16] ++ payload ++
          (crcFold CRCInit (len :: ((len ^^^ 0xFF) % 16) :: payload) % 256 ::
           crcFold CRCInit (len :: ((len ^^^ 0xFF) % 16) :: payload) / 256 ::
            List.replicate (256 - len) 0)) 0 (len + 8) := by
      rw [show len + 8 = (len + 7) + 1 from by omega]
      rw [List.singleton_append, List.take_succ_cons, sliceD_take,
        Nat.min_eq_left (by omega : len + 7 ≤ len + 9)]
      conv_rhs => rw [sliceD_succ]
      rfl
    rw [hslice, sliceD_eq_take _ _ (by rw [hbuflen]; omega)]
    rw [List.take_append_eq_append_take]
    rw [List.take_of_length_le (by rw [List.length_append, h3]; simp; omega)]
    rw [show len + 8 - ([0xAA, 0xAA, 0x2D, 0xD4, len, (len ^^^ 0xFF) % 16] ++ payload).length = 2
      from by rw [List.length_append, h3]; simp; omega]
    rfl

end RFM12

namespace RFM12

set_option maxRecDepth 8192 in
/-- C1 counterexample: the round trip fails at length 256 (the claimed
MaxPayload). `TXInit(256)` truncates the `len_t` (uint8) parameter to 0,
the transmitted frame carries length byte 0, and the receiver rejects it
at the header stage: FrameReady is never reached and `RXGetPacket` reports
length 0, not 256. -/
theorem C1_counterexample_len256 :
    (TXInit (TXSetBuff initState (List.replicate 256 3)) 256).sendBuff.getD 4 0 = 0 ∧
    (txRun defaultCfg (TXInit (TXSetBuff initState (List.replicate 256 3)) 256) 10).mode =
      Mode.Mt ∧
    ¬ (feed defaultCfg (RXInit initState)
        ((txRun defaultCfg (TXInit (TXSetBuff initState (List.replicate 256 3)) 256) 10).txBytes.drop 4)).mode =
      Mode.MX ∧
    (RXGetPacket (feed defaultCfg (RXInit initState)
        ((txRun defaultCfg (TXInit (TXSetBuff initState (List.replicate 256 3)) 256) 10).txBytes.drop 4))).2.1 = 0 ∧
    (feed defaultCfg (RXInit initState)
        ((txRun defaultCfg (TXInit (TXSetBuff initState (List.replicate 256 3)) 256) 10).txBytes.drop 4)).packetsRX = 0 := by
  decide

/-- C1 (amended): for every length in 1..=255 (the range representable in
the uint8 `len_t`) and every payload byte sequence of that length,
encoding with `TXInit` and decoding the built frame through the RX
interrupt path yields FrameReady with the same payload bytes and the same
length returned by `RXGetPacket`. -/
theorem C1_roundtrip_amended (cfg : Config) (len : Nat) (payload : List Nat)
    (h1 : 1 ≤ len) (h2 : len ≤ 255) (h3 : payload.length = len)
    (h4 : ∀ b ∈ payload, b < 256) :
    (feed cfg (RXInit initState)
        (builtPacket (TXInit (TXSetBuff initState payload) len) len)).mode = Mode.MX ∧
    (RXGetPacket (feed cfg (RXInit initState)
        (builtPacket (TXInit (TXSetBuff initState payload) len) len))).2.1 = len ∧
    ((RXGetPacket (feed cfg (RXInit initState)
        (builtPacket (TXInit (TXSetBuff initState payload) len) len))).2.2.getD []).take len =
      payload := by
  obtain ⟨hm, hg, ht⟩ := roundtrip_spec cfg len payload h1 h2 h3 h4
  refine ⟨hm, ?_, ?_⟩
  · rw [hg]
  · rw [hg]
    simpa using ht

/-- Witness for C1 (amended) at length 5 with payload "Hello". -/
theorem C1_roundtrip_amended_witness :
    (feed defaultCfg (RXInit initState)
        (builtPacket (TXInit (TXSetBuff initState [72, 101, 108, 108, 111]) 5) 5)).mode =
      Mode.MX ∧
    (RXGetPacket (feed defaultCfg (RXInit initState)
        (builtPacket (TXInit (TXSetBuff initState [72, 101, 108, 108, 111]) 5) 5))).2.1 = 5 ∧
    ((RXGetPacket (feed defaultCfg (RXInit initState)
        (builtPacket (TXInit (TXSetBuff initState [72, 101, 108, 108, 111]) 5) 5))).2.2.getD []).take 5 =
      [72, 101, 108, 108, 111] :=
  C1_roundtrip_amended defaultCfg 5 [72, 101, 108, 108, 111]
    (by decide) (by decide) (by decide) (by decide)

set_option maxRecDepth 8192 in
/-- C4 counterexample: a transfer with length equal to MaxPayload
(`MaxMesgSize = 256`) does not round-trip: the uint8 length parameter
wraps to 0, so the frame built by `TXInit` carries length byte 0 and the
receiver drops it at the header stage. -/
theorem C4_counterexample_maxpayload :
    MaxMesgSize = 256 ∧
    (TXInit (TXSetBuff initState (List.replicate 256 5)) MaxMesgSize).sendBuff.getD 4 0 = 0 ∧
    ¬ (feed defaultCfg (RXInit initState)
        (builtPacket (TXInit (TXSetBuff initState (List.replicate 256 5)) MaxMesgSize) 0)).mode =
      Mode.MX ∧
    (feed defaultCfg (RXInit initState)
        (builtPacket (TXInit (TXSetBuff initState (List.replicate 256 5)) MaxMesgSize) 0)).packetsRX = 0 ∧
    1 ≤ (feed defaultCfg (RXInit initState)
        (builtPacket (TXInit (TXSetBuff initState (List.replicate 256 5)) MaxMesgSize) 0)).ctrErr := by
  decide

/-- C4 (amended): the largest transferable length is 255, the maximum
representable in the uint8 `len_t`: a 255-byte transfer is accepted and
fully round-trips, while `TXInit(MaxMesgSize)` (= 256) wraps the length
byte to 0, which the header stage always rejects. -/
theorem C4_maxlen_roundtrip (payload : List Nat)
    (h3 : payload.length = 255) (h4 : ∀ b ∈ payload, b < 256) :
    ((feed defaultCfg (RXInit initState)
        (builtPacket (TXInit (TXSetBuff initState payload) 255) 255)).mode = Mode.MX ∧
     (RXGetPacket (feed defaultCfg (RXInit initState)
        (builtPacket (TXInit (TXSetBuff initState payload) 255) 255))).2.1 = 255 ∧
     ((RXGetPacket (feed defaultCfg (RXInit initState)
        (builtPacket (TXInit (TXSetBuff initState payload) 255) 255))).2.2.getD []).take 255 =
       payload) ∧
    (∀ q : List Nat, (TXInit (TXSetBuff initState q) MaxMesgSize).sendBuff.getD 4 0 % 256 = 0) := by
  constructor
  · obtain ⟨hm, hg, ht⟩ := roundtrip_spec defaultCfg 255 payload (by omega) (by omega) h3 h4
    refine ⟨hm, ?_, ?_⟩
    · rw [hg]
    · rw [hg]
      simpa using ht
  · intro q
    rw [TXInit_sendBuff_chain]
    rw [List.getD_eq_getElem?_getD]
    by_cases hlen : 4 < (TXSetBuff initState q).sendBuff.length
    · rw [List.getElem?_set_ne (by simp only [SynchSize, COMM_HEADSIZE]; omega)]
      rw [List.getElem?_set_ne (by simp only [SynchSize, COMM_HEADSIZE]; omega)]
      rw [List.getElem?_set_ne (by omega : (5 : Nat) ≠ 4)]
      rw [List.getElem?_set_eq_of_lt _ hlen]
      rfl
    · have h260 : (TXSetBuff initState q).sendBuff.length = 264 := by
        rw [TXSetBuff]
        rw [writeList_length]
        rw [show initState.sendBuff = [0xAA, 0xAA, 0x2D, 0xD4] ++ List.replicate 260 0 from rfl,
          List.length_append, List.length_replicate]
        rfl
      omega

set_option maxRecDepth 8192 in
/-- Witness for C4 (amended) with a concrete 255-byte payload. -/
theorem C4_maxlen_roundtrip_witness :
    ((feed defaultCfg (RXInit initState)
        (builtPacket (TXInit (TXSetBuff initState ((List.range 255).map (fun i => (i * 7 + 3) % 256))) 255) 255)).mode = Mode.MX ∧
     (RXGetPacket (feed defaultCfg (RXInit initState)
        (builtPacket (TXInit (TXSetBuff initState ((List.range 255).map (fun i => (i * 7 + 3) % 256))) 255) 255))).2.1 = 255 ∧
     ((RXGetPacket (feed defaultCfg (RXInit initState)
        (builtPacket (TXInit (TXSetBuff initState ((List.range 255).map (fun i => (i * 7 + 3) % 256))) 255) 255))).2.2.getD []).take 255 =
       (List.range 255).map (fun i => (i * 7 + 3) % 256)) ∧
    (∀ q : List Nat, (TXInit (TXSetBuff initState q) MaxMesgSize).sendBuff.getD 4 0 % 256 = 0) :=
  C4_maxlen_roundtrip ((List.range 255).map (fun i => (i * 7 + 3) % 256))
    (by decide) (by decide)

end RFM12

namespace RFM12

/-- C2 counterexample: for the 1-byte payload [0], the trailer low byte
`TXInit` writes differs from the low byte of the CRC over control byte and
payload only — the source folds the length byte into the CRC as well
(its CRC loop starts at `Raw + SynchSize`, the length field, and runs
`Length + COMM_HEADSIZE` times). -/
theorem C2_counterexample_lenbyte :
    (TXInit (TXSetBuff initState [0]) 1).sendBuff.getD 7 0 ≠
      crcOverControlPayload ((1 ^^^ 0xFF) % 16) [0] % 256 ∧
    (TXInit (TXSetBuff initState [0]) 1).sendBuff.getD 7 0 =
      crcFold CRCInit [1, (1 ^^^ 0xFF) % 16, 0] % 256 := by
  decide

/-- C2 (amended): the CRC trailer written by `TXInit` is CRC-16/CCITT with
initial value 0xFFFF accumulated one byte at a time over the length byte,
the control byte, and the payload (the length byte is included), appended
low byte first; and at the body-end interrupt the RX engine declares the
frame valid (reaches MX) iff the running accumulator is 0x0000 after the
trailer bytes are consumed. -/
theorem C2_crc_amended :
    (∀ (len : Nat) (payload : List Nat), 1 ≤ len → len ≤ 255 → payload.length = len →
      (TXInit (TXSetBuff initState payload) len).sendBuff.getD (6 + len) 0 =
        crcFold CRCInit (len :: ((len ^^^ 0xFF) % 16) :: payload) % 256 ∧
      (TXInit (TXSetBuff initState payload) len).sendBuff.getD (7 + len) 0 =
        crcFold CRCInit (len :: ((len ^^^ 0xFF) % 16) :: payload) / 256) ∧
    (∀ (cfg : Config) (s : CommState) (b e : Nat), s.mode = Mode.MR →
      s.recvCur = some e → s.recvEnd = some e →
      ((ISR cfg s false b).mode = Mode.MX ↔ crc_ccitt_update s.crc (b % 256) = 0)) := by
  constructor
  · intro len payload h1 h2 h3
    rw [TXInit_initState_spec len payload h1 h2 h3]
    have hL : ([0xAA, 0xAA, 0x2D, 0xD4, len, (len ^^^ 0xFF) % 16] ++ payload).length = 6 + len := by
      rw [List.length_append, h3]
      rfl
    constructor
    · rw [List.getD_eq_getElem?_getD,
        List.getElem?_append_right (by rw [hL]),
        hL, Nat.sub_self]
      rfl
    · rw [List.getD_eq_getElem?_getD,
        List.getElem?_append_right (by rw [hL]; omega), hL,
        show 7 + len - (6 + len) = 1 from by omega]
      simp
  · intro cfg s b e hm hc he
    have hmt : s.mode ≠ Mode.MT := by rw [hm]; intro hx; cases hx
    have hmr : s.mode ≠ Mode.Mr := by rw [hm]; intro hx; cases hx
    constructor
    · intro hmx
      by_contra hcrc
      rw [ISR_rx_body_reject cfg s b e hmt hmr hc he hcrc] at hmx
      rw [ResetRX_mode] at hmx
      by_cases hr : cfg.rxretry = true <;> simp [hr] at hmx
    · intro hcrc
      rw [ISR_rx_body_accept cfg s b e hmt hmr hc he hcrc]

/-- Witness for C2 (amended): trailer bytes for the payload [0] at length
1, and the body-end acceptance iff at a concrete state whose accumulator
is one update away from zero. -/
theorem C2_crc_amended_witness :
    ((TXInit (TXSetBuff initState [0]) 1).sendBuff.getD (6 + 1) 0 =
        crcFold CRCInit [1, (1 ^^^ 0xFF) % 16, 0] % 256 ∧
      (TXInit (TXSetBuff initState [0]) 1).sendBuff.getD (7 + 1) 0 =
        crcFold CRCInit [1, (1 ^^^ 0xFF) % 16, 0] / 256) ∧
    ((ISR defaultCfg
        { initState with mode := Mode.MR, recvCur := some 7, recvEnd := some 7,
                         crc := 0xFFFF } false 0xFF).mode = Mode.MX ↔
      crc_ccitt_update 0xFFFF (0xFF % 256) = 0) :=
  ⟨(C2_crc_amended.1 1 [0] (by decide) (by decide) (by decide)),
   (C2_crc_amended.2 defaultCfg
      { initState with mode := Mode.MR, recvCur := some 7, recvEnd := some 7,
                       crc := 0xFFFF } 0xFF 7 rfl rfl rfl)⟩

end RFM12

namespace RFM12

/-- The first received byte from the freshly armed receiver is stored at
offset 0 of the receive buffer and folded into the CRC; the link keeps
listening for the rest of the header. -/
theorem rx_first_byte (cfg : Config) (b0 : Nat) :
    feed cfg (RXInit initState) [b0] =
      { sendBuff := [0xAA, 0xAA, 0x2D, 0xD4] ++ List.replicate 260 0
        sendCur := none
        sendEnd := none
        recvBuff := b0 % 256 :: List.replicate 259 0
        recvCur := some 1
        recvEnd := some 1
        mode := Mode.Mr
        packetsTX := 0
        packetsRX := 0
        ctrErr := 0
        crcErr := 0
        crc := crc_ccitt_update CRCInit (b0 % 256)
        hwMode := RFMode.RX
        irqEnabled := true
        fifoResets := 1
        txBytes := []
        rxStores := [0] } := by
  rw [RXInit_initState, feed_cons,
    ISR_rx_store cfg _ b0 0 1 (by intro hx; cases hx) rfl rfl (by omega), feed_nil]
  rfl

/-- C3: header redundancy.  (TX) `TXInit` after `TXConfig` writes a control
byte whose low nibble is the bitwise complement of the (truncated) length's
low nibble and whose high nibble is the config nibble set by `TXConfig`.
(RX) the receiver accepts a two-byte header iff the control byte's low
nibble matches the complement of the length byte's low nibble and the
length byte is non-zero; otherwise — in particular whenever the length
byte is 0 — the frame is rejected at the header stage with the control
error counter bumped to 1, and neither body assembly (MR) nor frame-ready
(MX) is ever reached. -/
theorem C3_header_redundancy (cfg : Config) (s : CommState) (cfg0 len b0 b1 : Nat)
    (h6 : 6 ≤ s.sendBuff.length) :
    ((TXInit (TXConfig s cfg0) len).sendBuff.getD 5 0 =
        (cfg0 % 16) * 16 + (((len % 256) ^^^ 0xFF) % 16)) ∧
    ((feed cfg (RXInit initState) [b0, b1]).mode = Mode.MR ↔
        ((b1 % 256) % 16 = ((b0 % 256) ^^^ 0xFF) % 16 ∧ ¬ b0 % 256 = 0)) ∧
    (¬ ((b1 % 256) % 16 = ((b0 % 256) ^^^ 0xFF) % 16 ∧ ¬ b0 % 256 = 0) →
        (feed cfg (RXInit initState) [b0, b1]).ctrErr = 1 ∧
        ¬ (feed cfg (RXInit initState) [b0, b1]).mode = Mode.MX ∧
        (feed cfg (RXInit initState) [b0, b1]).mode =
          (if cfg.rxretry then Mode.Mr else Mode.MI)) := by
  have htx : (TXInit (TXConfig s cfg0) len).sendBuff.getD 5 0 =
      (cfg0 % 16) * 16 + (((len % 256) ^^^ 0xFF) % 16) := by
    have hlen6 : 6 ≤ (TXConfig s cfg0).sendBuff.length := by
      show 6 ≤ (s.sendBuff.set 5 ((cfg0 % 16) * 16 + (s.sendBuff.getD 5 0) % 16)).length
      rw [List.length_set]
      exact h6
    rw [TXInit_ctrlByte _ len hlen6, TXConfig_getD5 s cfg0 h6]
    have hr16 : (s.sendBuff.getD 5 0) % 16 < 16 := Nat.mod_lt _ (by norm_num)
    omega
  have hfeed : feed cfg (RXInit initState) [b0, b1] =
      ISR cfg
        { sendBuff := [0xAA, 0xAA, 0x2D, 0xD4] ++ List.replicate 260 0
          sendCur := none
          sendEnd := none
          recvBuff := b0 % 256 :: List.replicate 259 0
          recvCur := some 1
          recvEnd := some 1
          mode := Mode.Mr
          packetsTX := 0
          packetsRX := 0
          ctrErr := 0
          crcErr := 0
          crc := crc_ccitt_update CRCInit (b0 % 256)
          hwMode := RFMode.RX
          irqEnabled := true
          fifoResets := 1
          txBytes := []
          rxStores := [0] } false b1 := by
    rw [show ([b0, b1] : List Nat) = [b0] ++ [b1] from rfl, feed_append,
      rx_first_byte, feed_cons, feed_nil]
  by_cases hm : (b1 % 256) % 16 = ((b0 % 256) ^^^ 0xFF) % 16
  · by_cases hz : b0 % 256 = 0
    · have hstep : feed cfg (RXInit initState) [b0, b1] =
          ResetRX cfg
            { sendBuff := [0xAA, 0xAA, 0x2D, 0xD4] ++ List.replicate 260 0
              sendCur := none
              sendEnd := none
              recvBuff := (b0 % 256 :: List.replicate 259 0).set 1 (b1 % 256)
              recvCur := some 1
              recvEnd := some 1
              mode := Mode.Mr
              packetsTX := 0
              packetsRX := 0
              ctrErr := 1
              crcErr := 0
              crc := crc_ccitt_update (crc_ccitt_update CRCInit (b0 % 256)) (b1 % 256)
              hwMode := RFMode.RX
              irqEnabled := true
              fifoResets := 1
              txBytes := []
              rxStores := [0, 1] } := by
        rw [hfeed, ISR_rx_header_reject_len cfg _ b1 1 rfl rfl rfl
          (by show (b1 % 256) % 16 = ((b0 % 256) ^^^ 0xFF) % 16
              exact hm)
          (by show b0 % 256 = 0
              exact hz)]
        rfl
      refine ⟨htx, ⟨?_, ?_⟩, fun _ => ⟨?_, ?_, ?_⟩⟩
      · intro hmx
        exfalso
        rw [hstep, ResetRX_mode] at hmx
        by_cases hrx : cfg.rxretry = true
        · rw [if_pos hrx] at hmx
          cases hmx
        · rw [if_neg hrx] at hmx
          cases hmx
      · intro hcon
        exact absurd hz hcon.2
      · rw [hstep, ResetRX_ctrErr]
      · intro hmx
        rw [hstep, ResetRX_mode] at hmx
        by_cases hrx : cfg.rxretry = true
        · rw [if_pos hrx] at hmx
          cases hmx
        · rw [if_neg hrx] at hmx
          cases hmx
      · rw [hstep, ResetRX_mode]
    · rw [hfeed, ISR_rx_header_accept cfg _ b1 1 rfl rfl rfl
        (by show (b1 % 256) % 16 = ((b0 % 256) ^^^ 0xFF) % 16
            exact hm)
        (by show ¬ b0 % 256 = 0
            exact hz)]
      refine ⟨htx, ⟨fun _ => ⟨hm, hz⟩, fun _ => rfl⟩, ?_⟩
      intro hcon
      exact absurd ⟨hm, hz⟩ hcon
  · have hstep : feed cfg (RXInit initState) [b0, b1] =
        ResetRX cfg
          { sendBuff := [0xAA, 0xAA, 0x2D, 0xD4] ++ List.replicate 260 0
            sendCur := none
            sendEnd := none
            recvBuff := (b0 % 256 :: List.replicate 259 0).set 1 (b1 % 256)
            recvCur := some 1
            recvEnd := some 1
            mode := Mode.Mr
            packetsTX := 0
            packetsRX := 0
            ctrErr := 1
            crcErr := 0
            crc := crc_ccitt_update (crc_ccitt_update CRCInit (b0 % 256)) (b1 % 256)
            hwMode := RFMode.RX
            irqEnabled := true
            fifoResets := 1
            txBytes := []
            rxStores := [0, 1] } := by
      rw [hfeed, ISR_rx_header_reject_ctrl cfg _ b1 1 rfl rfl rfl
        (by show ¬ (b1 % 256) % 16 = ((b0 % 256) ^^^ 0xFF) % 16
            exact hm)]
      rfl
    refine ⟨htx, ⟨?_, ?_⟩, fun _ => ⟨?_, ?_, ?_⟩⟩
    · intro hmx
      exfalso
      rw [hstep, ResetRX_mode] at hmx
      by_cases hrx : cfg.rxretry = true
      · rw [if_pos hrx] at hmx
        cases hmx
      · rw [if_neg hrx] at hmx
        cases hmx
    · intro hcon
      exact absurd hcon.1 hm
    · rw [hstep, ResetRX_ctrErr]
    · intro hmx
      rw [hstep, ResetRX_mode] at hmx
      by_cases hrx : cfg.rxretry = true
      · rw [if_pos hrx] at hmx
        cases hmx
      · rw [if_neg hrx] at hmx
        cases hmx
    · rw [hstep, ResetRX_mode]

set_option maxRecDepth 8192 in
/-- Witness for C3: config nibble 3 with length 5 yields control byte 0x3A
(config nibble 3, control nibble 0xA); the receiver accepts the header
[5, 0x3A]; the header [0, 0x0F] (length 0 with a matching control nibble)
is rejected with the control error counter bumped and frame-ready
unreachable. -/
theorem C3_header_redundancy_witness :
    (TXInit (TXConfig initState 3) 5).sendBuff.getD 5 0 = 0x3A ∧
    (feed defaultCfg (RXInit initState) [5, 0x3A]).mode = Mode.MR ∧
    (feed defaultCfg (RXInit initState) [0, 0x0F]).ctrErr = 1 ∧
    ¬ (feed defaultCfg (RXInit initState) [0, 0x0F]).mode = Mode.MX := by
  have h1 := C3_header_redundancy defaultCfg initState 3 5 5 0x3A (by decide)
  have h2 := C3_header_redundancy defaultCfg initState 3 5 0 0x0F (by decide)
  have h2r := h2.2.2 (by decide)
  refine ⟨?_, ?_, ?_, ?_⟩
  · rw [h1.1]
    decide
  · exact h1.2.1.mpr (by decide)
  · exact h2r.1
  · exact h2r.2.1

end RFM12

namespace RFM12

/-- C6: feeding the RX engine a well-formed frame whose CRC trailer low
byte has been bit-flipped never reaches frame-ready (MX) at any prefix of
the byte stream, increments the CRC error counter by exactly 1, and — with
RX retry enabled — returns the link to header-listening (Mr) re-armed
exactly as `RXInit` arms it: one more FIFO reset issued, the CRC
accumulator back at its initial value, the receive cursors back at the
header window, the hardware mode untouched (still RX) and the interrupt
still enabled. -/
theorem C6_crc_flip (cfg : Config) (len : Nat) (payload : List Nat) (bs : List Nat)
    (h1 : 1 ≤ len) (h2 : len ≤ 255) (h3 : payload.length = len)
    (h4 : ∀ x ∈ payload, x < 256) (hr : cfg.rxretry = true)
    (hbs : bs = (len :: ((len ^^^ 0xFF) % 16) :: payload) ++
        [(crcFold CRCInit (len :: ((len ^^^ 0xFF) % 16) :: payload) % 256) ^^^ 0xFF,
         crcFold CRCInit (len :: ((len ^^^ 0xFF) % 16) :: payload) / 256]) :
    (∀ k, ¬ (feed cfg (RXInit initState) (bs.take k)).mode = Mode.MX) ∧
    (feed cfg (RXInit initState) bs).crcErr = 1 ∧
    (feed cfg (RXInit initState) bs).mode = Mode.Mr ∧
    (feed cfg (RXInit initState) bs).fifoResets = 2 ∧
    (feed cfg (RXInit initState) bs).crc = CRCInit ∧
    (feed cfg (RXInit initState) bs).recvCur = some 0 ∧
    (feed cfg (RXInit initState) bs).recvEnd = some 1 ∧
    (feed cfg (RXInit initState) bs).hwMode = RFMode.RX ∧
    (feed cfg (RXInit initState) bs).irqEnabled = true := by
  subst hbs
  have hflip := rx_feed_flip cfg len payload h1 h2 h3 h4 hr
  have hlo : (crcFold CRCInit (len :: ((len ^^^ 0xFF) % 16) :: payload) % 256) ^^^ 0xFF < 256 :=
    Nat.xor_lt_two_pow (n := 8) (Nat.mod_lt _ (by norm_num)) (by norm_num)
  have hctrl_lt : (len ^^^ 0xFF) % 16 < 256 := by
    have := Nat.mod_lt (len ^^^ 0xFF) (y := 16) (by omega)
    omega
  have hmatch : ((len ^^^ 0xFF) % 16) % 16 = (len ^^^ 0xFF) % 16 :=
    Nat.mod_mod_of_dvd _ dvd_rfl
  have hlenbs : ((len :: ((len ^^^ 0xFF) % 16) :: payload) ++
      [(crcFold CRCInit (len :: ((len ^^^ 0xFF) % 16) :: payload) % 256) ^^^ 0xFF,
       crcFold CRCInit (len :: ((len ^^^ 0xFF) % 16) :: payload) / 256]).length = len + 4 := by
    rw [List.length_append, List.length_cons, List.length_cons, h3]
    rfl
  refine ⟨?_, by rw [hflip], by rw [hflip], by rw [hflip], by rw [hflip],
    by rw [hflip], by rw [hflip], by rw [hflip], by rw [hflip]⟩
  intro k
  by_cases hk4 : len + 4 ≤ k
  · rw [List.take_of_length_le (by rw [hlenbs]; exact hk4), hflip]
    exact fun hx => Mode.noConfusion hx
  · have hklt : k < len + 4 := by omega
    match k, hklt with
    | 0, _ =>
      rw [List.take_zero, feed_nil]
      exact fun hx => Mode.noConfusion hx
    | 1, _ =>
      rw [show ((len :: ((len ^^^ 0xFF) % 16) :: payload) ++
          [(crcFold CRCInit (len :: ((len ^^^ 0xFF) % 16) :: payload) % 256) ^^^ 0xFF,
           crcFold CRCInit (len :: ((len ^^^ 0xFF) % 16) :: payload) / 256]).take 1 =
          [len] from rfl]
      rw [rx_first_byte]
      exact fun hx => Mode.noConfusion hx
    | (m + 2), hklt =>
      have hm1 : m ≤ len + 1 := by omega
      have htake : ((len :: ((len ^^^ 0xFF) % 16) :: payload) ++
          [(crcFold CRCInit (len :: ((len ^^^ 0xFF) % 16) :: payload) % 256) ^^^ 0xFF,
           crcFold CRCInit (len :: ((len ^^^ 0xFF) % 16) :: payload) / 256]).take (m + 2) =
          [len, (len ^^^ 0xFF) % 16] ++
            (payload ++
              [(crcFold CRCInit (len :: ((len ^^^ 0xFF) % 16) :: payload) % 256) ^^^ 0xFF]).take m := by
        rw [show (len :: ((len ^^^ 0xFF) % 16) :: payload) ++
            [(crcFold CRCInit (len :: ((len ^^^ 0xFF) % 16) :: payload) % 256) ^^^ 0xFF,
             crcFold CRCInit (len :: ((len ^^^ 0xFF) % 16) :: payload) / 256] =
            len :: ((len ^^^ 0xFF) % 16) ::
              (payload ++
                [(crcFold CRCInit (len :: ((len ^^^ 0xFF) % 16) :: payload) % 256) ^^^ 0xFF,
                 crcFold CRCInit (len :: ((len ^^^ 0xFF) % 16) :: payload) / 256]) from rfl]
        rw [List.take_succ_cons, List.take_succ_cons]
        rw [show payload ++
            [(crcFold CRCInit (len :: ((len ^^^ 0xFF) % 16) :: payload) % 256) ^^^ 0xFF,
             crcFold CRCInit (len :: ((len ^^^ 0xFF) % 16) :: payload) / 256] =
            (payload ++
              [(crcFold CRCInit (len :: ((len ^^^ 0xFF) % 16) :: payload) % 256) ^^^ 0xFF]) ++
            [crcFold CRCInit (len :: ((len ^^^ 0xFF) % 16) :: payload) / 256] from
          (List.append_assoc payload
            [(crcFold CRCInit (len :: ((len ^^^ 0xFF) % 16) :: payload) % 256) ^^^ 0xFF]
            [crcFold CRCInit (len :: ((len ^^^ 0xFF) % 16) :: payload) / 256]).symm]
        rw [List.take_append_of_le_length (by rw [List.length_append, h3]; exact hm1)]
        rfl
      rw [htake, feed_append,
        rx_header_phase cfg len ((len ^^^ 0xFF) % 16) h1 h2 hctrl_lt hmatch]
      rw [feed_body_advance cfg
        ((payload ++
          [(crcFold CRCInit (len :: ((len ^^^ 0xFF) % 16) :: payload) % 256) ^^^ 0xFF]).take m)
        _ 2 (len + 3) rfl rfl rfl
        (by rw [List.length_take, List.length_append, h3, List.length_singleton]
            omega)
        (by intro x hx
            rcases List.mem_append.mp (List.take_subset m _ hx) with hxx | hxx
            · exact h4 x hxx
            · rw [List.mem_singleton.mp hxx]
              exact hlo)]
      exact fun hx => Mode.noConfusion hx

/-- Witness for C6 at length 1 and payload [42]: the 3-byte prefix never
shows frame-ready, and after the full flipped frame the CRC error counter
is 1, the link is re-armed listening for a header, and a second FIFO reset
has gone out. -/
theorem C6_crc_flip_witness :
    ¬ (feed defaultCfg (RXInit initState)
        (((1 :: ((1 ^^^ 0xFF) % 16) :: [42]) ++
          [(crcFold CRCInit (1 :: ((1 ^^^ 0xFF) % 16) :: [42]) % 256) ^^^ 0xFF,
           crcFold CRCInit (1 :: ((1 ^^^ 0xFF) % 16) :: [42]) / 256]).take 3)).mode = Mode.MX ∧
    (feed defaultCfg (RXInit initState)
        ((1 :: ((1 ^^^ 0xFF) % 16) :: [42]) ++
          [(crcFold CRCInit (1 :: ((1 ^^^ 0xFF) % 16) :: [42]) % 256) ^^^ 0xFF,
           crcFold CRCInit (1 :: ((1 ^^^ 0xFF) % 16) :: [42]) / 256])).crcErr = 1 ∧
    (feed defaultCfg (RXInit initState)
        ((1 :: ((1 ^^^ 0xFF) % 16) :: [42]) ++
          [(crcFold CRCInit (1 :: ((1 ^^^ 0xFF) % 16) :: [42]) % 256) ^^^ 0xFF,
           crcFold CRCInit (1 :: ((1 ^^^ 0xFF) % 16) :: [42]) / 256])).mode = Mode.Mr ∧
    (feed defaultCfg (RXInit initState)
        ((1 :: ((1 ^^^ 0xFF) % 16) :: [42]) ++
          [(crcFold CRCInit (1 :: ((1 ^^^ 0xFF) % 16) :: [42]) % 256) ^^^ 0xFF,
           crcFold CRCInit (1 :: ((1 ^^^ 0xFF) % 16) :: [42]) / 256])).fifoResets = 2 :=
  have h := C6_crc_flip defaultCfg 1 [42]
    ((1 :: ((1 ^^^ 0xFF) % 16) :: [42]) ++
      [(crcFold CRCInit (1 :: ((1 ^^^ 0xFF) % 16) :: [42]) % 256) ^^^ 0xFF,
       crcFold CRCInit (1 :: ((1 ^^^ 0xFF) % 16) :: [42]) / 256])
    (by decide) (by decide) (by decide) (by decide) rfl rfl
  ⟨h.1 3, h.2.1, h.2.2.1, h.2.2.2.1⟩

end RFM12

namespace RFM12

/-- Witness for C8 (amended) at length 1 and payload [42]: cursor at index
1, end cursor at 11, and the 11 clocked bytes are the 9-byte frame followed
by two dummy bytes. -/
theorem C8_tx_cursors_amended_witness :
    (TXInit (TXSetBuff initState [42]) 1).sendCur = some 1 ∧
    (TXInit (TXSetBuff initState [42]) 1).sendEnd = some (1 + 10) ∧
    (TXInit (TXSetBuff initState [42]) 1).txBytes = [0xAA] ∧
    (txRun defaultCfg (TXInit (TXSetBuff initState [42]) 1) (1 + 10)).mode = Mode.Mt ∧
    (txRun defaultCfg (TXInit (TXSetBuff initState [42]) 1) (1 + 10)).txBytes.length =
      1 + 10 ∧
    (txRun defaultCfg (TXInit (TXSetBuff initState [42]) 1) (1 + 10)).txBytes.take (1 + 8) =
      [0xAA, 0xAA, 0x2D, 0xD4, 1, (1 ^^^ 0xFF) % 16] ++ [42] ++
        [crcFold CRCInit (1 :: ((1 ^^^ 0xFF) % 16) :: [42]) % 256,
         crcFold CRCInit (1 :: ((1 ^^^ 0xFF) % 16) :: [42]) / 256] :=
  C8_tx_cursors_amended defaultCfg 1 [42] (by decide) (by decide) (by decide)

end RFM12
